import Mathlib

/-!
Verification development for the Tutor Answer Orchestration Engine
(backend/app/ai: planner, checker, coordinator, service, visual_planner).

The Python source is shallowly embedded:
* pure string manipulation (regex scans, normalisation) is translated into
  executable Lean functions over `List Char`;
* external collaborators (the JSON decoder `json.loads`, the SymPy
  computer-algebra backend, the local LLM generation port, the subprocess
  visualization executor, the web retrieval backend) are passed in as
  explicit function parameters, with the contracts a theorem needs stated
  as hypotheses and instantiated concretely in witnesses;
* Python exceptions are modelled with `Except Unit`: code that may raise
  returns `.error ()`, a `try/except` is a `match` that maps `.error` to
  the handler's result;
* floating point arithmetic in the source (Jaccard scores, root
  tolerances) only ever compares small rationals whose values and
  comparisons are exactly representable, so it is modelled with `ℚ`.

Python semantic conventions used throughout: `str.strip`/`split` use the
six ASCII whitespace characters (the inputs of interest are ASCII);
`str.lower` is modelled on ASCII letters; `\d` in the regexes is modelled
as the ASCII digits.
-/

namespace EuclidsWindow

/-! ## Python string primitives -/

/-- The characters matched by Python's `\s` (and stripped by `str.strip`). -/
def pyIsSpace (c : Char) : Bool :=
  c == ' ' || c == '\t' || c == '\n' || c == '\x0d' || c == '\x0b' || c == '\x0c'

/-- ASCII lower-casing of one character, as done by `str.lower`. -/
def charLower (c : Char) : Char :=
  if 'A' ≤ c && c ≤ 'Z' then Char.ofNat (c.toNat + 32) else c

def lowerL (l : List Char) : List Char := l.map charLower

/-- Does `hay` start with `needle`? -/
def startsL : List Char → List Char → Bool
  | [], _ => true
  | _ :: _, [] => false
  | c :: cs, h :: hs => c == h && startsL cs hs

/-- Index of the first occurrence of `needle` in `hay` (Python `str.find`,
also the leftmost-match rule of `re.search` for a literal pattern). -/
def findSubL (needle : List Char) : List Char → Option Nat
  | [] => if needle.isEmpty then some 0 else none
  | h :: t =>
    if startsL needle (h :: t) then some 0
    else (findSubL needle t).map (· + 1)

/-- Python's `needle in hay` substring test. -/
def containsL (hay needle : List Char) : Bool := (findSubL needle hay).isSome

def strContains (hay needle : String) : Bool := containsL hay.toList needle.toList

/-- Case-insensitive substring test (`needle` given lowercased). -/
def containsCI (hay needle : List Char) : Bool := containsL (lowerL hay) needle

def pyLower (s : String) : String := String.mk (lowerL s.toList)

def lstripL (p : Char → Bool) (l : List Char) : List Char := l.dropWhile p

def rstripL (p : Char → Bool) (l : List Char) : List Char :=
  (l.reverse.dropWhile p).reverse

def stripL (p : Char → Bool) (l : List Char) : List Char :=
  rstripL p (lstripL p l)

/-- Python `str.strip()` (whitespace). -/
def pyStrip (s : String) : String := String.mk (stripL pyIsSpace s.toList)

def pyLstrip (s : String) : String := String.mk (lstripL pyIsSpace s.toList)

def pyRstrip (s : String) : String := String.mk (rstripL pyIsSpace s.toList)

/-- Python `str.strip(chars)` for an explicit character set. -/
def pyStripSet (chars : List Char) (s : String) : String :=
  String.mk (stripL (fun c => chars.contains c) s.toList)

/-- Python `str.split()` with no separator: split on whitespace runs,
discarding empty pieces. -/
def splitWsAux : List Char → List Char → List String
  | [], acc => if acc.isEmpty then [] else [String.mk acc.reverse]
  | c :: t, acc =>
    if pyIsSpace c then
      if acc.isEmpty then splitWsAux t [] else String.mk acc.reverse :: splitWsAux t []
    else splitWsAux t (c :: acc)

def pySplitWs (s : String) : List String := splitWsAux s.toList []

/-- Replace every occurrence of `pat` (non-empty) by `rep`
(Python `str.replace`), with fuel for termination. -/
def replaceAux (pat rep : List Char) : Nat → List Char → List Char
  | 0, l => l
  | _ + 1, [] => []
  | fuel + 1, l@(h :: t) =>
    if pat.isEmpty then l
    else if startsL pat l then rep ++ replaceAux pat rep fuel (l.drop pat.length)
    else h :: replaceAux pat rep fuel t

def pyReplace (s pat rep : String) : String :=
  String.mk (replaceAux pat.toList rep.toList s.toList.length s.toList)

/-- Python `str.capitalize()`: first character upper-cased, rest lower-cased
(ASCII model). -/
def pyCapitalize (s : String) : String :=
  match s.toList with
  | [] => ""
  | c :: t =>
    String.mk ((if 'a' ≤ c && c ≤ 'z' then Char.ofNat (c.toNat - 32) else c) :: lowerL t)

/-- Python `s[:n]` for a non-negative `n`. -/
def pyTake (s : String) (n : Nat) : String := String.mk (s.toList.take n)

/-- Python `"sep".join(parts)`. -/
def joinSep (sep : String) : List String → String
  | [] => ""
  | [x] => x
  | x :: xs => x ++ sep ++ joinSep sep xs

/-! ## Python values

`PyVal` represents the Python values that flow through the planner's
payload dictionaries: the results of `json.loads` and the dictionaries
built by the loose parser.  JSON floats are not modelled (no theorem in
this file depends on a float-valued payload field); deterministic-planner
recipe parameters that are float literals in the source are represented
with `rat`. -/

inductive PyVal where
  | none : PyVal
  | bool (b : Bool) : PyVal
  | int (n : Int) : PyVal
  | rat (q : ℚ) : PyVal
  | str (s : String) : PyVal
  | list (xs : List PyVal) : PyVal
  | dict (kvs : List (String × PyVal)) : PyVal

/-- Dictionary lookup distinguishing a missing key (`Option.none`) from a
present key (Python dictionaries have unique keys, so the first match is
the value). -/
def dictGet (kvs : List (String × PyVal)) (k : String) : Option PyVal :=
  match kvs.lookup k with
  | Option.none => Option.none
  | Option.some v => Option.some v

/-- Python's `payload.get(k)`: both a missing key and a stored `None`
come back as `None`. -/
def pyGet (kvs : List (String × PyVal)) (k : String) : PyVal :=
  (dictGet kvs k).getD PyVal.none

/-- Python's `payload.get(k, default)` with a string default. -/
def pyGetD (kvs : List (String × PyVal)) (k : String) (d : PyVal) : PyVal :=
  (dictGet kvs k).getD d

/-- `payload[k] = v`: update in place, or append preserving insertion
order (as CPython dictionaries do). -/
def dictSet (kvs : List (String × PyVal)) (k : String) (v : PyVal) :
    List (String × PyVal) :=
  match kvs with
  | [] => [(k, v)]
  | (k', v') :: t => if k' = k then (k, v) :: t else (k', v') :: dictSet t k v

/-- Python truthiness of a `PyVal`. -/
def pyTruthyV : PyVal → Bool
  | .none => false
  | .bool b => b
  | .int n => n != 0
  | .rat q => q != 0
  | .str s => !s.isEmpty
  | .list xs => !xs.isEmpty
  | .dict kvs => !kvs.isEmpty

/-- Truthiness of a Python value that is either absent (`None`) or a
string, as used for the loose parser's locals. -/
def pyTruthy : Option String → Bool
  | Option.none => false
  | Option.some s => !s.isEmpty

mutual

/-- Python `str(v)`.  For container values this is `repr`; `repr` of a
string is modelled as the single-quoted text without Python's escaping
of special characters (no theorem evaluates `str` on a container holding
such characters). -/
def pyStr : PyVal → String
  | .none => "None"
  | .bool b => if b then "True" else "False"
  | .int n => toString n
  | .rat q => toString q
  | .str s => s
  | .list xs => "[" ++ joinSep ", " (pyReprList xs) ++ "]"
  | .dict kvs => "\x7b" ++ joinSep ", " (pyReprKVs kvs) ++ "\x7d"

def pyRepr : PyVal → String
  | .str s => "\x27" ++ s ++ "\x27"
  | v => pyStr v

def pyReprList : List PyVal → List String
  | [] => []
  | v :: t => pyRepr v :: pyReprList t

def pyReprKVs : List (String × PyVal) → List String
  | [] => []
  | (k, v) :: t => ("\x27" ++ k ++ "\x27: " ++ pyRepr v) :: pyReprKVs t

end

/-! ## Data model (backend/app/models.py and backend/app/ai/models.py) -/

/-- `VisualizationType` enumeration. -/
inductive VisualizationType where
  | svg : VisualizationType
  | plotly : VisualizationType
  | manim : VisualizationType
deriving DecidableEq

/-- `TutorCheck`: a named pass/warn verdict. -/
structure TutorCheck where
  name : String
  status : String
  details : String
deriving DecidableEq

/-- `VisualizationPlan` (ai/models.py): the pre-execution recipe. -/
structure VisualizationPlan where
  type : VisualizationType
  goal : String
  parameters : List (String × PyVal)
  code : Option String

/-- `TutorPlan` (ai/models.py). -/
structure TutorPlan where
  solution : String
  plain_explanation : Option String
  axiomatic_explanation : Option String
  checks : List TutorCheck
  needs_visualization : Bool
  visualization : Option VisualizationPlan

/-! ## Regex building blocks

Each Python regex used by the planner is translated into a direct
scanner over `List Char`.  `re.search` finds the leftmost position at
which the whole pattern matches; `re.findall` restarts after the end of
each match.  Lazy groups (`(.*?)`) take the shortest extension for
which the rest of the pattern matches. -/

def expectLit (lit l : List Char) : Option (List Char) :=
  if startsL lit l then some (l.drop lit.length) else none

def skipWs (l : List Char) : List Char := l.dropWhile pyIsSpace

def expectChar (c : Char) : List Char → Option (List Char)
  | [] => none
  | h :: t => if h == c then some t else none

def optChar (c : Char) (l : List Char) : List Char :=
  match l with
  | h :: t => if h == c then t else l
  | [] => l

/-- Match `([^"]+)"`: at least one non-quote character up to the closing
quote.  Returns the group and the input after the closing quote. -/
def takeQuoted (l : List Char) : Option (List Char × List Char) :=
  let content := l.takeWhile (fun c => c != '"')
  if content.isEmpty then none
  else
    match l.drop content.length with
    | '"' :: rest => some (content, rest)
    | _ => none

/-- Match `"key"\s*:\s*"([^"]+)"` at the current position. -/
def quotedFieldAt (key : List Char) (l : List Char) : Option (String × List Char) := do
  let r ← expectLit ('"' :: key ++ ['"']) l
  let r ← expectChar ':' (skipWs r)
  let r ← expectChar '"' (skipWs r)
  let (v, rest) ← takeQuoted r
  pure (String.mk v, rest)

def findallFieldAux (key : List Char) : Nat → List Char → List String
  | 0, _ => []
  | _ + 1, [] => []
  | fuel + 1, l@(_ :: t) =>
    match quotedFieldAt key l with
    | some (v, rest) => v :: findallFieldAux key fuel rest
    | none => findallFieldAux key fuel t

/-- `re.findall(r'"key"\s*:\s*"([^"]+)"', raw)`. -/
def findallField (key : String) (raw : String) : List String :=
  findallFieldAux key.toList raw.toList.length raw.toList

/-- Match one occurrence of
`"step"\s*:\s*"?(\d+)"?\s*,\s*"(?:text|explanation)"\s*:\s*"([^"]+)"`. -/
def stepsAt (l : List Char) : Option ((String × String) × List Char) := do
  let r ← expectLit "\"step\"".toList l
  let r ← expectChar ':' (skipWs r)
  let r := optChar '"' (skipWs r)
  let digits := r.takeWhile Char.isDigit
  if digits.isEmpty then none
  else do
    let r := optChar '"' (r.drop digits.length)
    let r ← expectChar ',' (skipWs r)
    let r := skipWs r
    let r ←
      match expectLit "\"text\"".toList r with
      | some r' => some r'
      | none => expectLit "\"explanation\"".toList r
    let r ← expectChar ':' (skipWs r)
    let r ← expectChar '"' (skipWs r)
    let (v, rest) ← takeQuoted r
    pure ((String.mk digits, String.mk v), rest)

def stepsFindallAux : Nat → List Char → List (String × String)
  | 0, _ => []
  | _ + 1, [] => []
  | fuel + 1, l@(_ :: t) =>
    match stepsAt l with
    | some (m, rest) => m :: stepsFindallAux fuel rest
    | none => stepsFindallAux fuel t

def stepsFindall (raw : String) : List (String × String) :=
  stepsFindallAux raw.toList.length raw.toList

/-- `re.search(r'"type"\s*:\s*"(manim|plotly)"', raw)`, returning the group. -/
def typeAt (l : List Char) : Option String :=
  match expectLit "\"type\"".toList l with
  | none => none
  | some r1 =>
    match expectChar ':' (skipWs r1) with
    | none => none
    | some r2 =>
      match expectChar '"' (skipWs r2) with
      | none => none
      | some r3 =>
        match expectLit "manim\"".toList r3 with
        | some _ => some "manim"
        | none =>
          match expectLit "plotly\"".toList r3 with
          | some _ => some "plotly"
          | none => none

def typeSearchAux : Nat → List Char → Option String
  | 0, _ => none
  | _ + 1, [] => none
  | fuel + 1, l@(_ :: t) =>
    match typeAt l with
    | some v => some v
    | none => typeSearchAux fuel t

def typeSearch (raw : String) : Option String :=
  typeSearchAux raw.toList.length raw.toList

/-- `re.search(r'"goal"\s*:\s*"([^"]+)"', raw)`, returning the group. -/
def goalSearchAux : Nat → List Char → Option String
  | 0, _ => none
  | _ + 1, [] => none
  | fuel + 1, l@(_ :: t) =>
    match quotedFieldAt "goal".toList l with
    | some (v, _) => some v
    | none => goalSearchAux fuel t

def goalSearch (raw : String) : Option String :=
  goalSearchAux raw.toList.length raw.toList

/-- `re.search(r'"needs_visualization"\s*:\s*(true|false)', raw, IGNORECASE)`;
the caller only tests `group(1).lower() == "true"`, so the result is that
boolean. -/
def needsAt (l : List Char) : Option Bool := do
  let r ← expectLit "\"needs_visualization\"".toList l
  let r ← expectChar ':' (skipWs r)
  let r := skipWs r
  match expectLit "true".toList r with
  | some _ => some true
  | none =>
    match expectLit "false".toList r with
    | some _ => some false
    | none => none

def needsSearchAux : Nat → List Char → Option Bool
  | 0, _ => none
  | _ + 1, [] => none
  | fuel + 1, l@(_ :: t) =>
    match needsAt l with
    | some v => some v
    | none => needsSearchAux fuel t

/-- IGNORECASE is handled by scanning the lowercased text (the pattern is
already lowercase). -/
def needsSearch (raw : String) : Option Bool :=
  needsSearchAux raw.toList.length (lowerL raw.toList)

/-- Group of `re.search(r"```json\s*(.*?)```", raw, DOTALL | IGNORECASE)`,
stripped (as done at the call site).  The leftmost case-insensitive
occurrence of "```json" matches iff a closing "```" occurs after it; a later
occurrence of "```json" would itself provide such a closing fence. -/
def jsonFenceBlock (raw : String) : Option String :=
  match findSubL "```json".toList (lowerL raw.toList) with
  | none => none
  | some i =>
    let after := skipWs (raw.toList.drop (i + 7))
    match findSubL "```".toList after with
    | none => none
    | some j => some (String.mk (stripL pyIsSpace (after.take j)))

/-- After an opening "```", recognise `(?:python)?\n` and return the start
of the lazy body group. -/
def fenceBodyStart (r : List Char) : Option (List Char) :=
  match r with
  | '\n' :: b => some b
  | _ =>
    if startsL "python".toList (lowerL r) then
      match r.drop 6 with
      | '\n' :: b => some b
      | _ => none
    else none

def codeFenceAux : Nat → List Char → Option String
  | 0, _ => none
  | _ + 1, [] => none
  | fuel + 1, l@(_ :: t) =>
    (if startsL "```".toList l then
      match fenceBodyStart (l.drop 3) with
      | some b =>
        match findSubL "```".toList b with
        | some j => some (String.mk (b.take j))
        | none => codeFenceAux fuel t
      | none => codeFenceAux fuel t
    else codeFenceAux fuel t)

/-- Group of `re.search(r"```(?:python)?\n(.*?)```", raw, DOTALL|IGNORECASE)`
(unstripped; the call site strips). -/
def codeFenceSearch (raw : String) : Option String :=
  codeFenceAux raw.toList.length raw.toList

/-- Scan the lazy group of `"code"\s*:\s*"([\s\S]*?)"\s*[,\}]`: the group
ends at the first `"` that is followed by optional whitespace and `,` or
`}`; any other `"` is absorbed into the group. -/
def codeFieldBody : List Char → List Char → Option String
  | [], _ => none
  | '"' :: rest, acc =>
    (match skipWs rest with
     | ',' :: _ => some (String.mk acc.reverse)
     | '\x7d' :: _ => some (String.mk acc.reverse)
     | _ => codeFieldBody rest ('"' :: acc))
  | c :: rest, acc => codeFieldBody rest (c :: acc)

def codeFieldAt (l : List Char) : Option String := do
  let r ← expectLit "\"code\"".toList l
  let r ← expectChar ':' (skipWs r)
  let r ← expectChar '"' (skipWs r)
  codeFieldBody r []

def codeFieldSearchAux : Nat → List Char → Option String
  | 0, _ => none
  | _ + 1, [] => none
  | fuel + 1, l@(_ :: t) =>
    match codeFieldAt l with
    | some v => some v
    | none => codeFieldSearchAux fuel t

/-- `re.search(r'"code"\s*:\s*"([\s\S]*?)"\s*[,\}]', raw)`, returning the
group. -/
def codeFieldSearch (raw : String) : Option String :=
  codeFieldSearchAux raw.toList.length raw.toList

/-! ## Plan Parser (backend/app/ai/planner.py) -/

/-- Python `str.splitlines()` restricted to the `\n`, `\r\n`, `\r` line
boundaries (the rare unicode boundaries are not modelled). -/
def splitlinesAux : List Char → List Char → List String
  | [], acc => if acc.isEmpty then [] else [String.mk acc.reverse]
  | '\x0d' :: '\n' :: t, acc => String.mk acc.reverse :: splitlinesAux t []
  | '\x0d' :: t, acc => String.mk acc.reverse :: splitlinesAux t []
  | '\n' :: t, acc => String.mk acc.reverse :: splitlinesAux t []
  | c :: t, acc => splitlinesAux t (c :: acc)

def pySplitlines (s : String) : List String := splitlinesAux s.toList []

/-- The `while lines and lines[-1].strip() in ('}', '},', '"', '",')`
popping loop of `_extract_code_from_json_block`. -/
def popClosers (lines : List String) : List String :=
  (lines.reverse.dropWhile
    (fun ln => [ "\x7d", "\x7d,", "\"", "\"," ].contains (pyStrip ln))).reverse

/-- `TutorPlanner._extract_code_from_json_block`: best-effort extraction of
the `code` field from an invalid JSON block. -/
def extractCodeFromJsonBlock (block : String) : Option String :=
  if block = "" then none
  else
    match findSubL "\"code\"".toList block.toList with
    | none => none
    | some idx =>
      -- `block[idx:].split(":", 1)` must produce two parts
      let remainder := block.toList.drop idx
      match findSubL [':'] remainder with
      | none => none
      | some ci =>
        let afterColon := String.mk (remainder.drop (ci + 1))
        let code0 := pyLstrip afterColon
        let code1 :=
          if code0.toList.head? = some '"' then String.mk (code0.toList.drop 1) else code0
        let lines := popClosers (pySplitlines code1)
        let code2 := pyRstrip (joinSep "\n" lines)
        let code3 :=
          if code2.toList.getLast? = some '"' then
            String.mk (code2.toList.dropLast)
          else code2
        let code4 := pyStrip code3
        if code4 = "" then none else some code4

/-- Numbered rendering `f"{idx}. {desc}"` starting at 1 (loose parser). -/
def numberLinesAux : Nat → List String → List String
  | _, [] => []
  | i, x :: t => (toString i ++ ". " ++ x) :: numberLinesAux (i + 1) t

def numberedLines (xs : List String) : String := joinSep "\n" (numberLinesAux 1 xs)

/-- The `solution` local of `_parse_loose_payload`: numbered step matches,
else numbered `description` (or `explanation`) field matches. -/
def looseSolution (raw : String) : Option String :=
  let steps := stepsFindall raw
  if !steps.isEmpty then
    some (joinSep "\n" (steps.map (fun m => m.1 ++ ". " ++ m.2)))
  else
    let descs := findallField "description" raw
    let expls := findallField "explanation" raw
    let combined := if !descs.isEmpty then descs else expls
    if !combined.isEmpty then some (numberedLines combined) else none

/-- The `code` local of `_parse_loose_payload` (the `json_block` local is
only consumed here). -/
def looseCode (raw : String) : Option String :=
  match codeFenceSearch raw with
  | some body => some (pyStrip body)
  | none =>
    if pyTruthy (jsonFenceBlock raw) then
      extractCodeFromJsonBlock ((jsonFenceBlock raw).getD "")
    else
      match codeFieldSearch raw with
      | some c => some (pyStrip c)
      | none =>
        match findSubL "class GeneratedScene".toList raw.toList with
        | some i => some (pyStrip (String.mk (raw.toList.drop i)))
        | none => none

/-- The `visualization` local of `_parse_loose_payload`. -/
def looseViz (raw : String) : PyVal :=
  match typeSearch raw with
  | some ty =>
    .dict
      [("type", .str ty),
       ("goal", .str ((goalSearch raw).getD "Generated visualization")),
       ("parameters", .dict []),
       ("code", match looseCode raw with
         | some c => .str c
         | none => .none)]
  | none => .none

/-- `TutorPlanner._parse_loose_payload`: heuristic parser for near-JSON
outputs with embedded code.  Returns the Python dict it builds. -/
def parseLoosePayload (raw : String) : Option (List (String × PyVal)) :=
  if raw = "" then none
  else if !(pyTruthy (looseSolution raw) || (typeSearch raw).isSome ||
      pyTruthy (looseCode raw)) then none
  else
    some
      [("solution", .str (match looseSolution raw with
          | some s => if s = "" then pyStrip raw else s
          | none => pyStrip raw)),
       ("needs_visualization", .bool (match needsSearch raw with
          | some b => b
          | none => pyTruthyV (looseViz raw))),
       ("visualization", looseViz raw)]

/-- Helper for `_normalize_payload`'s list-of-steps rendering:
`f"{idx}. {...}"` over `enumerate(solution, start=1)`. -/
def numberedStepAux : Nat → List PyVal → List String
  | _, [] => []
  | i, item :: t =>
    (toString i ++ ". " ++
      (match item with
       | .dict kvs =>
         let d := pyGet kvs "description"
         let d2 := if pyTruthyV d then d else pyGet kvs "text"
         if pyTruthyV d2 then pyStr d2 else pyStr item
       | _ => pyStr item)) :: numberedStepAux (i + 1) t

def isPyNone : PyVal → Bool
  | .none => true
  | _ => false

/-- Normalisation of one `checks` entry (dict entries only; others are
dropped). -/
def normalizeChecksEntries : List PyVal → List PyVal
  | [] => []
  | .dict kvs :: t =>
    .dict
      [("name", .str (let n := pyGet kvs "name"
          ; if pyTruthyV n then pyStr n else "consistency")),
       ("status", .str (match pyGet kvs "status" with
          | .str s => if s = "pass" then "pass" else "warn"
          | _ => "warn")),
       ("details", .str (let d := pyGet kvs "details"
          ; let d2 := if pyTruthyV d then d else pyGet kvs "message"
          ; if pyTruthyV d2 then pyStr d2 else ""))]
      :: normalizeChecksEntries t
  | _ :: t => normalizeChecksEntries t

/-- `TutorPlanner._normalize_payload`: normalize common non-conforming
outputs into TutorPlan shape.  Each `let payload := ...` mirrors one
in-place mutation of the Python dict. -/
def normalizePayload (payload0 : List (String × PyVal)) : List (String × PyVal) :=
  let payload := payload0
  let solution0 := pyGet payload "solution"
  let solution1 :=
    if isPyNone solution0 && pyTruthyV (pyGet payload "explanation") then
      pyGet payload "explanation"
    else solution0
  let solution :=
    if isPyNone solution1 && pyTruthyV (pyGet payload "steps") then
      pyGet payload "steps"
    else solution1
  let payload :=
    match solution with
    | .list items => dictSet payload "solution" (.str (joinSep "\n" (numberedStepAux 1 items)))
    | .str _ => payload
    | .none => dictSet payload "solution" (.str "")
    | v => dictSet payload "solution" (.str (pyStr v))
  let payload :=
    if isPyNone (pyGet payload "plain_explanation") then
      dictSet payload "plain_explanation" (pyGetD payload "solution" (.str ""))
    else payload
  let payload :=
    if isPyNone (pyGet payload "axiomatic_explanation") then
      dictSet payload "axiomatic_explanation" (.str "")
    else payload
  let payload :=
    match pyGet payload "checks" with
    | .none => dictSet payload "checks" (.list [])
    | .list entries => dictSet payload "checks" (.list (normalizeChecksEntries entries))
    | _ => dictSet payload "checks" (.list [])
  let payload :=
    match pyGet payload "visualization" with
    | .dict vkvs =>
      let vkvs :=
        match pyGet vkvs "code" with
        | .str c =>
          if strContains c "\\n" && !strContains c "\n" then
            dictSet vkvs "code" (.str (pyReplace c "\\n" "\n"))
          else vkvs
        | _ => vkvs
      let vkvs :=
        if pyTruthyV (pyGet vkvs "type") && !pyTruthyV (pyGet vkvs "goal") then
          dictSet vkvs "goal" (.str "Generated visualization")
        else vkvs
      let vkvs :=
        match dictGet vkvs "parameters" with
        | Option.none => dictSet vkvs "parameters" (.dict [])
        | Option.some _ => vkvs
      dictSet payload "visualization" (.dict vkvs)
    | _ => payload
  let payload :=
    if isPyNone (pyGet payload "needs_visualization") then
      dictSet payload "needs_visualization" (.bool (pyTruthyV (pyGet payload "visualization")))
    else payload
  payload

/-! ### Pydantic validation of `TutorPlan(**payload)`

Pydantic v2 in its default (lax) mode: required fields must be present;
`str` fields accept exactly strings (numbers are not coerced to `str`);
`Optional[str]` additionally accepts `None`; extra keys are ignored.  The
lax coercions of strings/ints to `bool` are not modelled — no theorem
reaches them (the normaliser always supplies a real boolean). -/

def vizTypeOfStr : String → Option VisualizationType
  | "svg" => some .svg
  | "plotly" => some .plotly
  | "manim" => some .manim
  | _ => Option.none

def validateOptStr : Option PyVal → Option (Option String)
  | Option.none => some Option.none
  | Option.some .none => some Option.none
  | Option.some (.str s) => some (some s)
  | _ => Option.none

def validateCheck : PyVal → Option TutorCheck
  | .dict kvs => do
    let n ← (match dictGet kvs "name" with
      | Option.some (.str s) => Option.some s
      | _ => Option.none)
    let st ← (match dictGet kvs "status" with
      | Option.some (.str s) => if s = "pass" || s = "warn" then Option.some s else Option.none
      | _ => Option.none)
    let d ← (match dictGet kvs "details" with
      | Option.some (.str s) => Option.some s
      | _ => Option.none)
    pure ⟨n, st, d⟩
  | _ => Option.none

def validateChecks : Option PyVal → Option (List TutorCheck)
  | Option.none => some []
  | Option.some (.list xs) => xs.mapM validateCheck
  | _ => Option.none

def validateVizPlan (kvs : List (String × PyVal)) : Option VisualizationPlan := do
  let ty ← (match dictGet kvs "type" with
    | Option.some (.str s) => vizTypeOfStr s
    | _ => Option.none)
  let goal ← (match dictGet kvs "goal" with
    | Option.some (.str s) => Option.some s
    | _ => Option.none)
  let params ← (match dictGet kvs "parameters" with
    | Option.none => Option.some ([] : List (String × PyVal))
    | Option.some (.dict d) => Option.some d
    | _ => Option.none)
  let code ← validateOptStr (dictGet kvs "code")
  pure ⟨ty, goal, params, code⟩

def validateViz : Option PyVal → Option (Option VisualizationPlan)
  | Option.none => some Option.none
  | Option.some .none => some Option.none
  | Option.some (.dict kvs) => (validateVizPlan kvs).map some
  | _ => Option.none

/-- `TutorPlan(**kvs)`: `some plan` on success, `none` when pydantic would
raise a `ValidationError`. -/
def tutorPlanOfPayload (kvs : List (String × PyVal)) : Option TutorPlan := do
  let sol ← (match dictGet kvs "solution" with
    | Option.some (.str s) => Option.some s
    | _ => Option.none)
  let pl ← validateOptStr (dictGet kvs "plain_explanation")
  let ax ← validateOptStr (dictGet kvs "axiomatic_explanation")
  let cks ← validateChecks (dictGet kvs "checks")
  let nv ← (match dictGet kvs "needs_visualization" with
    | Option.none => Option.some false
    | Option.some (.bool b) => Option.some b
    | _ => Option.none)
  let viz ← validateViz (dictGet kvs "visualization")
  pure ⟨sol, pl, ax, cks, nv, viz⟩

/-! ### `extract_json_block` and `TutorPlanner.plan`

`json.loads` is an external collaborator; it is passed in as
`jp : JParser` mapping a string to the decoded value (`Option.none` when
`json.loads` raises `JSONDecodeError`). -/

abbrev JParser := String → Option PyVal

/-- Group 0 of `re.search(r"\{.*\}", text, DOTALL)`: from the first `{`,
the greedy `.*` runs to the last `}` of the text (which must lie after
that `{`). -/
def lastIndexOf (c : Char) : List Char → Option Nat
  | [] => none
  | h :: t =>
    match lastIndexOf c t with
    | some j => some (j + 1)
    | none => if h == c then some 0 else none

def braceCandidate (text : String) : Option String :=
  match findSubL ['\x7b'] text.toList with
  | none => none
  | some i =>
    let rest := text.toList.drop (i + 1)
    match lastIndexOf '\x7d' rest with
    | none => none
    | some j => some (String.mk ('\x7b' :: rest.take (j + 1)))

/-- `extract_json_block` (backend/app/ai/engine.py): try the whole text as
JSON, then the first balanced-looking `{...}` block. -/
def extract_json_block (jp : JParser) (text : String) : Option String :=
  if text = "" then none
  else
    match jp text with
    | some _ => some text
    | none =>
      match braceCandidate text with
      | none => none
      | some cand =>
        match jp cand with
        | some _ => some cand
        | none => none

/-- The body of `TutorPlanner.plan` from the raw completion onward
(planner.py lines 35-52).  `.error ()` models an exception escaping
`plan` (the loose-parse branch constructs the `TutorPlan` outside any
`try`); `.ok none` models `return None`. -/
def planFromRawE (jp : JParser) (raw : String) : Except Unit (Option TutorPlan) :=
  let json_text := if raw = "" then Option.none else extract_json_block jp raw
  match json_text with
  | Option.none =>
    if raw ≠ "" then
      match parseLoosePayload raw with
      | some parsed =>
        (match tutorPlanOfPayload (normalizePayload parsed) with
         | some p => .ok (some p)
         | Option.none => .error ())
      | Option.none =>
        .ok (some ⟨raw, Option.none, Option.none, [], false, Option.none⟩)
    else .ok Option.none
  | some jt =>
    -- `try: payload = json.loads(json_text); ... except Exception: return None`
    .ok (match jp jt with
      | some (.dict payload) => tutorPlanOfPayload (normalizePayload payload)
      | _ => Option.none)

/-! ## Symbolic Checker (backend/app/ai/checker.py)

The SymPy computer-algebra backend is an external collaborator.  A
`CAS` value packages the three operations the checker uses, each of
which parses the extracted expression string and may raise
(`.error ()`); a symbolic expression is represented by its `sp.sstr`
rendering together with its `sp.latex` rendering when `sp.latex`
succeeds.  `Option CAS` distinguishes an importable SymPy (`some`)
from `sp = None`. -/

structure SymExpr where
  sstr : String
  latexRepr : Option String

structure SymRoot where
  isReal : Bool
  numVal : Option ℚ

structure CAS where
  diffOf : String → Except Unit SymExpr
  integrateOf : String → Except Unit SymExpr
  solveRoots : String → Except Unit (List SymRoot)

/-- Generic `re.search`: try the scanner at each position, leftmost first. -/
def searchPosAux {α : Type} (f : List Char → Option α) : Nat → List Char → Option α
  | 0, _ => none
  | _ + 1, [] => none
  | fuel + 1, l@(_ :: t) =>
    match f l with
    | some v => some v
    | none => searchPosAux f fuel t

def reSearch {α : Type} (f : List Char → Option α) (s : String) : Option α :=
  searchPosAux f s.toList.length s.toList

namespace SymbolicChecker

/-- `_extract_expression_from_question`: the text after the first matching
prefix, with trailing punctuation and "with respect to x" fragments
removed; empty extraction falls through to the next prefix. -/
def extract_expression_from_question (question : String) (prefixes : List String) :
    Option String :=
  let q := pyReplace (pyLower question) "^" "**"
  let rec go : List String → Option String
    | [] => none
    | p :: rest =>
      match findSubL p.toList q.toList with
      | some idx =>
        let expr0 := pyStripSet " :?.!".toList (String.mk (q.toList.drop (idx + p.toList.length)))
        let expr := pyStrip (pyReplace (pyReplace expr0 "with respect to x" "") "w.r.t. x" "")
        if expr ≠ "" then some expr else go rest
      | none => go rest
  go prefixes

/-- Does the suffix match `\s*=\s*0`? -/
def wsEqZeroAt (l : List Char) : Bool :=
  match expectChar '=' (skipWs l) with
  | some r =>
    (match skipWs r with
     | '0' :: _ => true
     | _ => false)
  | none => false

/-- The lazy group of `solve\s+(.+?)\s*=\s*0`: the shortest non-empty
prefix whose remainder matches `\s*=\s*0`. -/
def lazyUntilEq0 (acc : List Char) : List Char → Option String
  | [] => none
  | c :: rest =>
    if !acc.isEmpty && wsEqZeroAt (c :: rest) then some (String.mk acc.reverse)
    else lazyUntilEq0 (c :: acc) rest

/-- Match `solve\s+(.+?)\s*=\s*0` at the current position.  Backtracking
of the greedy `\s+` into the lazy group can only contribute an
all-whitespace group, which strips to the empty string and is treated by
the caller exactly like no match. -/
def solveEqAt (l : List Char) : Option String := do
  let r ← expectLit "solve".toList l
  let w := r.takeWhile pyIsSpace
  if w.isEmpty then none
  else lazyUntilEq0 [] (r.drop w.length)

/-- Match `roots?\s+of\s+(.+)` at the current position; without DOTALL the
greedy `(.+)` is the maximal non-newline run. -/
def rootsOfAt (l : List Char) : Option String := do
  let r ← expectLit "root".toList l
  let r := optChar 's' r
  let w := r.takeWhile pyIsSpace
  if w.isEmpty then none
  else do
    let r ← expectLit "of".toList (r.drop w.length)
    let w2 := r.takeWhile pyIsSpace
    if w2.isEmpty then none
    else
      let body := r.drop w2.length
      let g := body.takeWhile (fun c => c != '\n')
      if g.isEmpty then none else some (String.mk g)

/-- `_extract_equation_lhs`. -/
def extract_equation_lhs (question : String) : Option String :=
  let q := pyReplace (pyLower question) "^" "**"
  match reSearch solveEqAt q with
  | some g => some (pyStrip g)
  | none =>
    match reSearch rootsOfAt q with
    | some g =>
      let expr := pyStripSet " ?.!".toList g
      some (pyStrip (pyReplace expr "= 0" ""))
    | none => none

/-- One match of `-?\d+(?:\.\d+)?` with its rational value
`±(ip + fp / 10^k)`, built with `mkRat` so that it evaluates inside the
kernel.  (`float` of a decimal token rounds to the nearest double; the
checker's `1e-3` tolerance test agrees with the exact rational value at
every input any theorem evaluates.) -/
def ratOfDigits (neg : Bool) (ds fs : List Char) : ℚ :=
  let ip : ℕ := ds.foldl (fun a c => a * 10 + (c.toNat - 48)) 0
  let fp : ℕ := fs.foldl (fun a c => a * 10 + (c.toNat - 48)) 0
  let num : Int := (ip * 10 ^ fs.length + fp : ℕ)
  mkRat (if neg then -num else num) (10 ^ fs.length)

def numAt (l : List Char) : Option (ℚ × List Char) :=
  let (neg, r) :=
    match l with
    | '-' :: t => (true, t)
    | _ => (false, l)
  let ds := r.takeWhile Char.isDigit
  if ds.isEmpty then none
  else
    let r2 := r.drop ds.length
    match r2 with
    | '.' :: r3 =>
      let fs := r3.takeWhile Char.isDigit
      if fs.isEmpty then some (ratOfDigits neg ds [], r2)
      else some (ratOfDigits neg ds fs, r3.drop fs.length)
    | _ => some (ratOfDigits neg ds [], r2)

def extractNumericAux : Nat → List Char → List ℚ
  | 0, _ => []
  | _ + 1, [] => []
  | fuel + 1, l@(_ :: t) =>
    match numAt l with
    | some (v, rest) => v :: extractNumericAux fuel rest
    | none => extractNumericAux fuel t

/-- `_extract_numeric_values`: all decimal tokens of the text. -/
def extract_numeric_values (text : String) : List ℚ :=
  extractNumericAux text.toList.length text.toList

/-- The tolerance test `abs(r - v) < 1e-3` of `_check_equation_roots`,
written by exact cross-multiplication (`r - v = Δ/(r.den*v.den)` with
`Δ = r.num*v.den - v.num*r.den`, and `|Δ|/D < 1/1000 ↔ 1000*|Δ| < D`)
so that it evaluates inside the kernel. -/
def absDiffLtMil (r v : ℚ) : Bool :=
  (r.num * v.den - v.num * r.den).natAbs * 1000 < r.den * v.den

theorem absDiffLtMil_iff (r v : ℚ) : absDiffLtMil r v = true ↔ |r - v| < 1 / 1000 := by
  have hrd : ((r.den : ℚ)) ≠ 0 := by
    exact_mod_cast r.den_nz
  have hvd : ((v.den : ℚ)) ≠ 0 := by
    exact_mod_cast v.den_nz
  have hD : (0 : ℚ) < (r.den : ℚ) * (v.den : ℚ) := by
    have h1 : (0 : ℚ) < (r.den : ℚ) := by exact_mod_cast r.den_pos
    have h2 : (0 : ℚ) < (v.den : ℚ) := by exact_mod_cast v.den_pos
    exact mul_pos h1 h2
  have hsub : r - v = ((r.num * v.den - v.num * r.den : ℤ) : ℚ) / ((r.den : ℚ) * (v.den : ℚ)) := by
    conv_lhs => rw [← Rat.num_div_den r, ← Rat.num_div_den v]
    field_simp
    ring
  rw [absDiffLtMil, decide_eq_true_eq, hsub, abs_div, abs_of_pos hD,
    div_lt_div_iff₀ hD (by norm_num : (0 : ℚ) < 1000), one_mul, ← Int.cast_abs,
    Int.abs_eq_natAbs]
  norm_cast

def removeWsLower (s : String) : String :=
  String.mk ((lowerL s.toList).filter (fun c => !pyIsSpace c))

/-- `_solution_contains_expression`: whitespace- and `*`-insensitive
containment of any rendering of the expression. -/
def solution_contains_expression (solution : String) (e : SymExpr) : Bool :=
  let normalized := removeWsLower solution
  let cands :=
    [e.sstr, pyReplace e.sstr "**" "^", pyReplace e.sstr "*" ""] ++
      (match e.latexRepr with
       | some lx => [lx]
       | none => [])
  cands.any (fun cand =>
    let c := removeWsLower cand
    if c = "" then false
    else strContains normalized c || strContains normalized (pyReplace c "*" ""))

/-- Match `A\\mathbf\{v\}\s*=\s*\\lambda` (case sensitive). -/
def eigenEqAt (l : List Char) : Option Unit := do
  let r ← expectLit "A\\mathbf\x7bv\x7d".toList l
  let r ← expectChar '=' (skipWs r)
  let _ ← expectLit "\\lambda".toList (skipWs r)
  pure ()

/-- Match `det\s*\(A\s*-\s*\\lambda\s*I\)` on lowercased text (IGNORECASE). -/
def charEqAt (l : List Char) : Option Unit := do
  let r ← expectLit "det".toList l
  let r ← expectChar '(' (skipWs r)
  let r ← expectChar 'a' r
  let r ← expectChar '-' (skipWs r)
  let r ← expectLit "\\lambda".toList (skipWs r)
  let r ← expectChar 'i' (skipWs r)
  let _ ← expectChar ')' r
  pure ()

def check_eigen_structure (text : String) : List TutorCheck :=
  let has_eigen_eq := (reSearch eigenEqAt text).isSome
  let has_char_eq := (searchPosAux charEqAt text.toList.length (lowerL text.toList)).isSome
  [⟨"eigen_definition_equation",
    if has_eigen_eq then "pass" else "warn",
    if has_eigen_eq then "Includes the eigen relation A v = lambda v."
    else "Missing explicit eigen relation A v = lambda v."⟩,
   ⟨"eigen_characteristic_equation",
    if has_char_eq then "pass" else "warn",
    if has_char_eq then "Includes determinant characteristic equation."
    else "Missing determinant form det(A - lambda I) = 0."⟩]

def check_derivative_shape (text : String) : List TutorCheck :=
  let has_prime :=
    strContains text "\x27" || strContains text "\\frac\x7bd" ||
      strContains (pyLower text) "d/dx"
  [⟨"derivative_notation_present",
    if has_prime then "pass" else "warn",
    if has_prime then "Derivative notation detected."
    else "No derivative notation detected in explanation."⟩]

def check_integral_shape (cas : Option CAS) (text : String) : List TutorCheck :=
  let has_integral := strContains text "\\int" || strContains (pyLower text) "integral"
  let checks :=
    [(⟨"integral_notation_present",
      if has_integral then "pass" else "warn",
      if has_integral then "Integral notation detected."
      else "No integral notation detected in explanation."⟩ : TutorCheck)]
  if cas.isSome && has_integral then
    checks ++
      [⟨"sympy_runtime_available", "pass",
        "SymPy is available for deeper symbolic checks."⟩]
  else checks

def check_derivative_symbolic (cas : Option CAS) (question text : String) :
    List TutorCheck :=
  match cas with
  | Option.none =>
    [⟨"derivative_symbolic_match", "warn",
      "SymPy unavailable, symbolic derivative match skipped."⟩]
  | some c =>
    let expr := extract_expression_from_question question ["derivative of", "differentiate"]
    if !pyTruthy expr then
      [⟨"derivative_symbolic_match", "warn",
        "Could not parse derivative target from question."⟩]
    else
      match c.diffOf (expr.getD "") with
      | .error _ =>
        [⟨"derivative_symbolic_match", "warn",
          "Failed to compute symbolic derivative from parsed expression."⟩]
      | .ok deriv =>
        let ok := solution_contains_expression text deriv
        [⟨"derivative_symbolic_match",
          if ok then "pass" else "warn",
          if ok then "Expected derivative " ++ deriv.sstr ++ " appears in solution."
          else "Expected derivative " ++ deriv.sstr ++ " not detected in solution."⟩]

def check_integral_symbolic (cas : Option CAS) (question text : String) :
    List TutorCheck :=
  match cas with
  | Option.none =>
    [⟨"integral_symbolic_match", "warn",
      "SymPy unavailable, symbolic integral match skipped."⟩]
  | some c =>
    let expr := extract_expression_from_question question ["integral of", "integrate"]
    if !pyTruthy expr then
      [⟨"integral_symbolic_match", "warn",
        "Could not parse integral target from question."⟩]
    else
      match c.integrateOf (expr.getD "") with
      | .error _ =>
        [⟨"integral_symbolic_match", "warn",
          "Failed to compute symbolic antiderivative from parsed expression."⟩]
      | .ok anti =>
        let ok := solution_contains_expression text anti
        [⟨"integral_symbolic_match",
          if ok then "pass" else "warn",
          if ok then
            "Expected antiderivative " ++ anti.sstr ++ " appears in solution (constant omitted)."
          else "Expected antiderivative " ++ anti.sstr ++ " not detected in solution."⟩]

/-- The `f"{m:.3g}"` rendering of a missing root, modelled for integral
values below 1000 (the only values a theorem in this file renders). -/
def fmtG3 (q : ℚ) : String :=
  if q.den = 1 && q.num.natAbs < 1000 then
    (if q.num < 0 then "-" ++ toString q.num.natAbs else toString q.num.natAbs)
  else toString q

def check_equation_roots (cas : Option CAS) (question text : String) :
    List TutorCheck :=
  match cas with
  | Option.none =>
    [⟨"equation_roots_match", "warn",
      "SymPy unavailable, root consistency check skipped."⟩]
  | some c =>
    let expr := extract_equation_lhs question
    if !pyTruthy expr then
      [⟨"equation_roots_match", "warn",
        "Could not parse solvable equation from question."⟩]
    else
      match c.solveRoots (expr.getD "") with
      | .error _ =>
        [⟨"equation_roots_match", "warn",
          "Failed to compute symbolic roots from parsed equation."⟩]
      | .ok roots =>
        if roots.isEmpty then
          [⟨"equation_roots_match", "warn",
            "Equation appears to have no symbolic roots."⟩]
        else
          let extracted := extract_numeric_values text
          let expected := roots.filterMap (fun r =>
            if r.isReal then r.numVal else Option.none)
          if expected.isEmpty then
            [⟨"equation_roots_match", "warn",
              "Roots are non-real or unparsable for numeric comparison."⟩]
          else
            let missing := expected.filter (fun r =>
              !(extracted.any (fun v => absDiffLtMil r v)))
            let ok := missing.isEmpty
            [⟨"equation_roots_match",
              if ok then "pass" else "warn",
              if ok then "All expected real roots are present in solution."
              else "Missing expected roots: " ++ joinSep ", " (missing.map fmtG3)⟩]

def derivMarkerTokens : List String := ["derivative", "differentiate", "d/dx"]

def integralMarkerTokens : List String := ["integral", "integrate"]

def solveMarkerTokens : List String := ["solve", "root", "roots", "equation"]

def derivMarker (qLower : String) : Bool :=
  derivMarkerTokens.any (fun tk => strContains qLower tk)

def integralMarker (qLower : String) : Bool :=
  integralMarkerTokens.any (fun tk => strContains qLower tk)

def solveMarker (qLower : String) : Bool :=
  solveMarkerTokens.any (fun tk => strContains qLower tk)

/-- The `checks.extend` sequence of `SymbolicChecker.run`: the rule
subsets selected by the topic markers of the lowercased question `q`,
in source order. -/
def dispatch_checks (cas : Option CAS) (q question text : String) : List TutorCheck :=
  (if strContains q "eigen" then check_eigen_structure text else [])
  ++ (if derivMarker q then
        check_derivative_shape text ++ check_derivative_symbolic cas question text
      else [])
  ++ (if integralMarker q then
        check_integral_shape cas text ++ check_integral_symbolic cas question text
      else [])
  ++ (if solveMarker q then check_equation_roots cas question text else [])

/-- `SymbolicChecker.run`: keyword-driven dispatch of the rules. -/
def run (cas : Option CAS) (question solution : String) : List TutorCheck :=
  let q := pyLower question
  let text := pyStrip solution
  if text = "" then
    [⟨"non_empty_solution", "warn", "No solution text available for checking."⟩]
  else
    let checks := dispatch_checks cas q question text
    if checks.isEmpty then
      [⟨"basic_symbolic_checker", "warn",
        "No domain-specific symbolic rule matched this question yet."⟩]
    else checks

end SymbolicChecker

/-! ## Answer Cache (backend/app/ai/service.py)

The cache is modelled at one instant with no entry expired: the store
writes both slots with the same 600s TTL and no claim in this file
concerns expiry.  The service keeps the exact-key answers and the
recency buffer (stored in the real cache under the reserved key
`tutor:recent`) in the two fields of `CacheState`; exact keys retain
their `tutor:` prefix.  Python's token *sets* are represented as
duplicate-free lists (set iteration order is unspecified in CPython and
only membership ever matters).  The visualization payload type is an
opaque parameter `VP`. -/

namespace GenerativeTutorService

def mapNonAlnum (c : Char) : Char :=
  if ('a' ≤ c && c ≤ 'z') || ('0' ≤ c && c ≤ '9') || pyIsSpace c then c else ' '

/-- `re.sub(r"\s+", " ", text)`: each whitespace run becomes one space. -/
def collapseWsAux : List Char → Bool → List Char
  | [], _ => []
  | c :: t, prevWs =>
    if pyIsSpace c then
      (if prevWs then collapseWsAux t true else ' ' :: collapseWsAux t true)
    else c :: collapseWsAux t false

/-- `_normalize_question`: lowercase, strip, non-alphanumerics to spaces,
whitespace collapsed.  Note the strip happens before the punctuation
mapping, so punctuation at the edges leaves spaces behind. -/
def normalize_question (question : String) : String :=
  let t1 := stripL pyIsSpace (lowerL question.toList)
  let t2 := t1.map mapNonAlnum
  String.mk (collapseWsAux t2 false)

def dedupFirstAux : List String → List String → List String
  | [], _ => []
  | x :: t, seen =>
    if seen.contains x then dedupFirstAux t seen
    else x :: dedupFirstAux t (x :: seen)

/-- A Python set of strings as a duplicate-free list (first occurrences). -/
def dedupFirst (l : List String) : List String := dedupFirstAux l []

/-- `_tokenize`: `set(text.split())`. -/
def tokenize (text : String) : List String := dedupFirst (pySplitWs text)

def setIntersectCard (a b : List String) : Nat :=
  (a.filter (fun x => b.contains x)).length

def setUnionCard (a b : List String) : Nat :=
  a.length + (b.filter (fun x => !a.contains x)).length

/-- `_jaccard`: `len(a & b) / len(a | b)` on duplicate-free lists, `0.0`
when either set is empty.  The float division is exact at these
cardinalities, so the value is the rational. -/
def jaccard (a b : List String) : ℚ :=
  if a.isEmpty || b.isEmpty then 0
  else mkRat (setIntersectCard a b) (setUnionCard a b)

structure RecentEntry (VP : Type) where
  tokens : List String
  result : String × Option VP

structure CacheState (VP : Type) where
  exact : List (String × (String × Option VP))
  recent : List (RecentEntry VP)

def assocSet {β : Type} (l : List (String × β)) (k : String) (v : β) :
    List (String × β) :=
  match l with
  | [] => [(k, v)]
  | (k', v') :: t => if k' = k then (k, v) :: t else (k', v') :: assocSet t k v

/-- The score the fallback scan assigns one buffered entry:
`self._jaccard(tokens, set(entry_tokens))`. -/
def simScore {VP : Type} (tokens : List String) (e : RecentEntry VP) : ℚ :=
  jaccard tokens (dedupFirst e.tokens)

/-- The best-entry scan of `_get_cached_answer`: keep the first entry
whose score strictly exceeds the running best (initially `0.0`). -/
def bestLoop {VP : Type} (tokens : List String) :
    List (RecentEntry VP) → Option (RecentEntry VP) → ℚ →
      Option (RecentEntry VP) × ℚ
  | [], best, bestScore => (best, bestScore)
  | e :: rest, best, bestScore =>
    let score := simScore tokens e
    if bestScore < score then bestLoop tokens rest (some e) score
    else bestLoop tokens rest best bestScore

/-- The exact-key probe of `_get_cached_answer` (its first return). -/
def exact_hit {VP : Type} (st : CacheState VP) (question : String) :
    Option (String × Option VP) :=
  st.exact.lookup ("tutor:" ++ normalize_question question)

/-- `_get_cached_answer`: exact key first, then the similarity fallback
over the recency buffer with the `0.9` threshold. -/
def get_cached_answer {VP : Type} (st : CacheState VP) (question : String) :
    Option (String × Option VP) :=
  let normalized := normalize_question question
  match st.exact.lookup ("tutor:" ++ normalized) with
  | some cached => some cached
  | Option.none =>
    let tokens := tokenize normalized
    match bestLoop tokens st.recent Option.none 0 with
    | (some best, bestScore) =>
      if mkRat 9 10 ≤ bestScore then some best.result else Option.none
    | (Option.none, _) => Option.none

/-- `_store_cached_answer`: fill the exact slot and append to the
recency buffer capped at its most recent 50 entries. -/
def store_cached_answer {VP : Type} (st : CacheState VP) (question solution : String)
    (visualization : Option VP) : CacheState VP :=
  let normalized := normalize_question question
  let exact := assocSet st.exact ("tutor:" ++ normalized) (solution, visualization)
  let tokens := tokenize normalized
  let recent := st.recent ++ [⟨tokens, (solution, visualization)⟩]
  ⟨exact, recent.drop (recent.length - 50)⟩

end GenerativeTutorService

/-! ## Deterministic Visualization Planner (backend/app/ai/visual_planner.py) -/

namespace VisualizationPlanner

/-- `VisualizationPlanner._eigenvalues_plotly_code`. -/
def eigenvalues_plotly_code : String :=
  "\nA = [[2, 0], [0, 1]]\nv1 = [1, 0]\nv2 = [1, 1]\n\ndef matvec(mat, vec):\n    return [\n        mat[0][0] * vec[0] + mat[0][1] * vec[1],\n        mat[1][0] * vec[0] + mat[1][1] * vec[1],\n    ]\n\nw1 = matvec(A, v1)\nw2 = matvec(A, v2)\n\nfig = go.Figure()\nfig.add_trace(go.Scatter(x=[0, v1[0]], y=[0, v1[1]], mode=\"lines+markers\", name=\"eigenvector v\"))\nfig.add_trace(go.Scatter(x=[0, w1[0]], y=[0, w1[1]], mode=\"lines+markers\", name=\"A v (same direction)\"))\nfig.add_trace(go.Scatter(x=[0, v2[0]], y=[0, v2[1]], mode=\"lines+markers\", name=\"vector u\"))\nfig.add_trace(go.Scatter(x=[0, w2[0]], y=[0, w2[1]], mode=\"lines+markers\", name=\"A u (direction changes)\"))\nfig.update_layout(\n    title=\"Eigenvectors keep direction under A\",\n    xaxis=dict(scaleanchor=\"y\", scaleratio=1, zeroline=True),\n    yaxis=dict(zeroline=True),\n    legend=dict(orientation=\"h\"),\n)\n"

/-- `VisualizationPlanner._parabola_plotly_code`. -/
def parabola_plotly_code : String :=
  "\nx = [i / 10 for i in range(-40, 41)]\ny = [v * v - 2 for v in x]\nfig = go.Figure()\nfig.add_trace(go.Scatter(x=x, y=y, mode=\"lines\", name=\"y = x^2 - 2\"))\nfig.update_layout(title=\"Parabola\", xaxis_title=\"x\", yaxis_title=\"y\")\n"

/-- `VisualizationPlanner._trig_plotly_code`. -/
def trig_plotly_code : String :=
  "\nimport math\nx = [i / 50 for i in range(0, 315)]\ny1 = [math.sin(v) for v in x]\ny2 = [math.cos(v) for v in x]\nfig = go.Figure()\nfig.add_trace(go.Scatter(x=x, y=y1, mode=\"lines\", name=\"sin(x)\"))\nfig.add_trace(go.Scatter(x=x, y=y2, mode=\"lines\", name=\"cos(x)\"))\nfig.update_layout(title=\"Sine and Cosine Waves\", xaxis_title=\"x (radians)\", yaxis_title=\"value\")\n"

/-- `VisualizationPlanner._derivative_plotly_code`. -/
def derivative_plotly_code : String :=
  "\nx = [i / 20 for i in range(-40, 41)]\ny = [v * v for v in x]\nx0 = 1.0\nm = 2 * x0\ny0 = x0 * x0\nyt = [m * (v - x0) + y0 for v in x]\nfig = go.Figure()\nfig.add_trace(go.Scatter(x=x, y=y, mode=\"lines\", name=\"f(x)=x^2\"))\nfig.add_trace(go.Scatter(x=x, y=yt, mode=\"lines\", name=\"tangent at x=1\"))\nfig.update_layout(title=\"Derivative as tangent slope\", xaxis_title=\"x\", yaxis_title=\"y\")\n"

/-- `VisualizationPlanner._fractions_plotly_code`. -/
def fractions_plotly_code : String :=
  "\nlabels = [\"Shaded (3/4)\", \"Unshaded (1/4)\"]\nvalues = [3, 1]\nfig = go.Figure(data=[go.Pie(labels=labels, values=values, hole=0.35)])\nfig.update_layout(title=\"Fraction model: 3/4 as parts of a whole\")\n"

/-- `VisualizationPlanner._systems_plotly_code`. -/
def systems_plotly_code : String :=
  "\nx = [i / 5 for i in range(-20, 26)]\ny1 = [2 * v + 1 for v in x]\ny2 = [-v + 4 for v in x]\n\n# Solve 2x + 1 = -x + 4 => x = 1, y = 3\nxi, yi = 1, 3\n\nfig = go.Figure()\nfig.add_trace(go.Scatter(x=x, y=y1, mode=\"lines\", name=\"y = 2x + 1\"))\nfig.add_trace(go.Scatter(x=x, y=y2, mode=\"lines\", name=\"y = -x + 4\"))\nfig.add_trace(go.Scatter(x=[xi], y=[yi], mode=\"markers+text\", text=[\"Intersection (1,3)\"], textposition=\"top center\", name=\"solution\"))\nfig.update_layout(title=\"System of equations as line intersection\", xaxis_title=\"x\", yaxis_title=\"y\")\n"

/-- `VisualizationPlanner._complex_plane_plotly_code`. -/
def complex_plane_plotly_code : String :=
  "\npoints = [(3, 2, \"3 + 2i\"), (1, -1, \"1 - i\"), (-2, 1, \"-2 + i\")]\nfig = go.Figure()\nfig.add_trace(\n    go.Scatter(\n        x=[p[0] for p in points],\n        y=[p[1] for p in points],\n        mode=\"markers+text\",\n        text=[p[2] for p in points],\n        textposition=\"top center\",\n        marker=dict(size=11),\n        name=\"Complex numbers\",\n    )\n)\nfig.add_hline(y=0, line_dash=\"dash\", line_color=\"#6b7280\")\nfig.add_vline(x=0, line_dash=\"dash\", line_color=\"#6b7280\")\nfig.update_layout(\n    title=\"Complex Plane (Argand Diagram)\",\n    xaxis_title=\"Real part\",\n    yaxis_title=\"Imaginary part\",\n    xaxis=dict(scaleanchor=\"y\", scaleratio=1),\n)\n"

/-- `VisualizationPlanner._hamiltonian_graph_plotly_code`. -/
def hamiltonian_graph_plotly_code : String :=
  "\nimport math\n\nn = 6\nangles = [2 * math.pi * i / n for i in range(n)]\nnodes = [(math.cos(a), math.sin(a)) for a in angles]\n\n# Graph edges: cycle edges + a few chords\nedges = [\n    (0, 1), (1, 2), (2, 3), (3, 4), (4, 5), (5, 0),\n    (0, 3), (1, 4), (2, 5),\n]\nham_cycle = [(0, 1), (1, 2), (2, 3), (3, 4), (4, 5), (5, 0)]\n\nfig = go.Figure()\n\n# Non-cycle edges in gray\nfor u, v in edges:\n    if (u, v) in ham_cycle or (v, u) in ham_cycle:\n        continue\n    x0, y0 = nodes[u]\n    x1, y1 = nodes[v]\n    fig.add_trace(go.Scatter(\n        x=[x0, x1], y=[y0, y1], mode=\"lines\",\n        line=dict(color=\"#9ca3af\", width=2),\n        hoverinfo=\"skip\", showlegend=False\n    ))\n\n# Hamiltonian cycle highlighted\nfor u, v in ham_cycle:\n    x0, y0 = nodes[u]\n    x1, y1 = nodes[v]\n    fig.add_trace(go.Scatter(\n        x=[x0, x1], y=[y0, y1], mode=\"lines\",\n        line=dict(color=\"#2563eb\", width=5),\n        hoverinfo=\"skip\", showlegend=False\n    ))\n\nfig.add_trace(go.Scatter(\n    x=[p[0] for p in nodes],\n    y=[p[1] for p in nodes],\n    mode=\"markers+text\",\n    text=[f\"v\x7bi\x7d\" for i in range(n)],\n    textposition=\"top center\",\n    marker=dict(size=14, color=\"#111827\"),\n    name=\"Vertices\"\n))\n\nfig.update_layout(\n    title=\"Hamiltonian Graph: highlighted cycle visits each vertex exactly once\",\n    xaxis=dict(visible=False, scaleanchor=\"y\", scaleratio=1),\n    yaxis=dict(visible=False),\n)\n"

def VISUAL_TOPIC_TOKENS : List String :=
  ["eigenvalue", "eigenvector", "parabola", "quadratic", "sine", "cosine",
   "trig", "derivative", "tangent", "fraction", "fractions",
   "system of equations", "systems of equations", "imaginary number",
   "imaginary numbers", "complex number", "complex numbers", "complex plane",
   "hamiltonian graph", "hamiltonian cycle", "graph theory"]

/-- `VisualizationPlanner.plan`: the fixed ordered keyword groups, first
match wins, each mapped to its hand-authored recipe. -/
def plan (question : String) : Option VisualizationPlan :=
  let q := pyLower question
  if ["hamiltonian graph", "hamiltonian cycle"].any (fun tk => strContains q tk) then
    some { type := .plotly, goal := "Hamiltonian cycle on a sample graph",
           parameters := [("nodes", .int 6),
             ("cycle", .list [.int 0, .int 1, .int 2, .int 3, .int 4, .int 5, .int 0])],
           code := some hamiltonian_graph_plotly_code }
  else if ["fraction", "fractions"].any (fun tk => strContains q tk) then
    some { type := .plotly, goal := "Fraction as parts of a whole",
           parameters := [("fraction", .list [.int 3, .int 4])],
           code := some fractions_plotly_code }
  else if ["system of equations", "systems of equations", "simultaneous equations"].any
      (fun tk => strContains q tk) then
    some { type := .plotly, goal := "Intersection point for a system of linear equations",
           parameters := [("equations", .list [.str "y=2x+1", .str "y=-x+4"])],
           code := some systems_plotly_code }
  else if ["imaginary number", "imaginary numbers", "complex number",
      "complex numbers", "complex plane"].any (fun tk => strContains q tk) then
    some { type := .plotly, goal := "Complex plane: real and imaginary axes",
           parameters := [("points", .list [.list [.int 3, .int 2],
             .list [.int 1, .int (-1)], .list [.int (-2), .int 1]])],
           code := some complex_plane_plotly_code }
  else if ["eigenvalue", "eigenvalues", "eigenvector", "eigenvectors"].any
      (fun tk => strContains q tk) then
    some { type := .plotly, goal := "Eigenvectors under a linear transformation",
           parameters := [("matrix", .list [.list [.int 2, .int 0], .list [.int 0, .int 1]]),
             ("vectors", .list [.list [.int 1, .int 0], .list [.int 1, .int 1]])],
           code := some eigenvalues_plotly_code }
  else if ["parabola", "quadratic"].any (fun tk => strContains q tk) then
    some { type := .plotly, goal := "Quadratic curve visualization",
           parameters := [("a", .int 1), ("b", .int 0), ("c", .int (-2))],
           code := some parabola_plotly_code }
  else if ["sine", "cosine", "trig", "sin(", "cos("].any (fun tk => strContains q tk) then
    some { type := .plotly, goal := "Sine and cosine wave intuition",
           parameters := [("domain", .list [.int 0, .rat (mkRat 628 100)])],
           code := some trig_plotly_code }
  else if ["derivative", "tangent"].any (fun tk => strContains q tk) then
    some { type := .plotly, goal := "Function with tangent line at a point",
           parameters := [("function", .str "x**2"), ("x0", .rat 1)],
           code := some derivative_plotly_code }
  else Option.none

/-- `VisualizationPlanner.is_visual_topic`. -/
def is_visual_topic (question : String) : Bool :=
  VISUAL_TOPIC_TOKENS.any (fun tk => strContains (pyLower question) tk)

end VisualizationPlanner

/-! ## Visualization execution and fallback chain (service.py) -/

namespace GenerativeTutorService

/-- The subprocess visualization executor (an external collaborator):
runs generated code with a timeout and yields a payload or `None`. -/
structure ExecPort (VP : Type) where
  execute_plotly : String → String → Option VP
  execute_manim : String → String → Option VP

/-- `_execute_visualization_plan`. -/
def execute_visualization_plan {VP : Type} (ex : ExecPort VP)
    (viz : VisualizationPlan) : Option VP :=
  if viz.type = .plotly then ex.execute_plotly (viz.code.getD "") viz.goal
  else if viz.type = .manim then ex.execute_manim (viz.code.getD "") viz.goal
  else Option.none

/-- `_question_requests_visualization`. -/
def question_requests_visualization (question : String) : Bool :=
  let q := pyLower question
  ["visualization", "visualise", "visualize", "plot", "graph", "animate",
    "animation"].any (fun tk => strContains q tk)

/-- `_execute_visualization`: the fallback chain applied by the service
(plan-requested visualization first, the deterministic recipe when the
question looks visual and the plan has no usable or successful one).
The unsupported-type branch and the empty-code branch only log. -/
def execute_visualization {VP : Type} (ex : ExecPort VP) (plan : TutorPlan)
    (question : String) : Option VP :=
  if !plan.needs_visualization || plan.visualization.isNone then
    (if question_requests_visualization question ||
        VisualizationPlanner.is_visual_topic question then
      match VisualizationPlanner.plan question with
      | some fallback => execute_visualization_plan ex fallback
      | Option.none => Option.none
    else Option.none)
  else
    match plan.visualization with
    | some viz =>
      if viz.type ≠ .plotly ∧ viz.type ≠ .manim then Option.none
      else
        match execute_visualization_plan ex viz with
        | some visualization => some visualization
        | Option.none =>
          if question_requests_visualization question ||
              VisualizationPlanner.is_visual_topic question then
            match VisualizationPlanner.plan question with
            | some fallback => execute_visualization_plan ex fallback
            | Option.none => Option.none
          else Option.none
    | Option.none => Option.none

/-! ## Diagram Job Manager (service.py)

A job record is mutated in place by `_update_diagram_job`; the lifetime
of one job is modelled as the sequence of states it passes through: the
state created by `start_diagram_job` followed by the worker updates of
`_run_diagram_job`.  The worker is the only writer after submission and
`_run_diagram_job` returns right after writing a terminal state, so this
trace is exhaustive: a poll (`get_diagram_job`, which returns a copy of
the current record) observes exactly the states of the trace, in order.
The job id (a fresh uuid) is not modelled; `outcome` packages the result
of the fallback chain and, when that yields nothing, the full
answer-generation retry. -/

inductive JobStatus where
  | queued : JobStatus
  | running : JobStatus
  | completed : JobStatus
  | error : JobStatus
deriving DecidableEq

structure JobRecord (VP : Type) where
  status : JobStatus
  progress : Nat
  question : String
  visualization : Option VP
  errorMsg : Option String
deriving DecidableEq

/-- The record created by `start_diagram_job`. -/
def submittedJob {VP : Type} (question : String) : JobRecord VP :=
  { status := .queued
    progress := 5
    question := question
    visualization := Option.none
    errorMsg := Option.none }

/-- `_update_diagram_job(job_id, status="running", progress=25)`. -/
def runningUpdate {VP : Type} (r : JobRecord VP) : JobRecord VP :=
  { r with status := .running, progress := 25 }

/-- The terminal update of `_run_diagram_job`: `completed` with the
payload attached, or `error` with the human-readable message. -/
def finalUpdate {VP : Type} (outcome : Option VP) (r : JobRecord VP) : JobRecord VP :=
  match outcome with
  | some viz =>
    { r with
      status := .completed
      progress := 100
      visualization := some viz
      errorMsg := Option.none }
  | Option.none =>
    { r with
      status := .error
      progress := 100
      errorMsg := some "No diagram plan available for this topic yet." }

/-- The in-place updates `_run_diagram_job` applies, in order. -/
def workerUpdates {VP : Type} (outcome : Option VP) :
    List (JobRecord VP → JobRecord VP) :=
  [runningUpdate, finalUpdate outcome]

/-- Every state one diagram job passes through, submission state first. -/
def jobTrace {VP : Type} (question : String) (outcome : Option VP) :
    List (JobRecord VP) :=
  (workerUpdates outcome).scanl (fun r u => u r) (submittedJob question)

end GenerativeTutorService

/-! ## Web Retrieval Enricher (backend/app/ai/web_rag.py)

Only `should_enrich` (pure string logic plus the settings flag) is
embedded; `retrieve` performs network calls and is a port. -/

structure RetrievedSnippet where
  title : String
  snippet : String
  url : String

structure WebRagPort where
  enabled : Bool
  retrieve : String → Nat → List RetrievedSnippet

namespace WebMathRAG

def TOPIC_TRIGGERS : List String :=
  ["hamiltonian", "graph theory", "riemann", "conjecture", "category theory",
   "topology", "number theory", "spectral graph", "open problem",
   "latest research", "from web", "from wikipedia", "recent", "latest"]

def LOW_CONFIDENCE_MARKERS : List String :=
  ["i don\x27t have a specific lesson", "could not generate", "not available",
   "no catalog lesson matched"]

def EXISTING_WEB_MARKERS : List String :=
  ["web-verified notes", "web rag notes", "**sources**"]

/-- `WebMathRAG.should_enrich`. -/
def should_enrich (port : WebRagPort) (question draft_answer : String) : Bool :=
  if !port.enabled then false
  else
    let q := pyLower question
    let a := pyLower draft_answer
    if EXISTING_WEB_MARKERS.any (fun m => strContains a m) then false
    else if TOPIC_TRIGGERS.any (fun tk => strContains q tk) then true
    else if LOW_CONFIDENCE_MARKERS.any (fun m => strContains a m) then true
    else false

end WebMathRAG

/-! ## TutorPlanner.plan and the Multi-Agent Coordinator

The generation port is `gen : String -> Option String` (`None` models
an unavailable/failed/timed-out call) together with the availability
probe `avail`; agent-metric recording does not affect any returned value
and is elided. -/

/-- One conversation message (`{"role": ..., "content": ...}`).  The
dictionary `.get` defaults of the source apply to well-formed messages,
which always carry both keys. -/
structure Msg where
  role : String
  content : String

def lastN {A : Type} (n : Nat) (l : List A) : List A := l.drop (l.length - n)

def historyLines (msgs : List Msg) : List String :=
  msgs.filterMap (fun m =>
    if m.content ≠ "" then some (pyCapitalize m.role ++ ": " ++ m.content)
    else Option.none)

/-- `SYSTEM_PROMPT` (backend/app/ai/prompts.py). -/
def SYSTEM_PROMPT : String :=
  "You are a local math tutor that outputs STRICT JSON.\nSolve the problem step-by-step and decide if a visualization helps.\n\nRules:\n- Output ONLY valid JSON. No markdown, no extra text.\n- If needs_visualization is false, visualization must be null.\n- If needs_visualization is true, include:\n  - type: \"manim\" or \"plotly\"\n  - goal: short description\n  - parameters: object\n  - code: Python code string\n- If the question explicitly asks for a visualization/plot/animation, set needs_visualization = true\n  and ALWAYS include usable code. Prefer Plotly if unsure.\n- In the solution, include 2-3 concise examples labeled \"Examples:\".\n- Also provide:\n  - plain_explanation: plain English explanation for learners\n  - axiomatic_explanation: definition -> assumptions -> derivation style explanation\n  - checks: array of \x7bname, status(pass|warn), details\x7d\n- Use LaTeX delimiters for equations and symbols, e.g., \\(\\lambda\\), \\(A\\mathbf\x7bv\x7d=\\lambda\\mathbf\x7bv\x7d\\).\n\nCode rules:\n- Plotly: must create a variable named fig (plotly.graph_objects or plotly.express).\n- Manim: must define a Scene class named GeneratedScene.\n"

namespace TutorPlanner

/-- The history block of `TutorPlanner.plan` (last 10 messages). -/
def history_block (history : List Msg) : String :=
  if history.isEmpty then ""
  else
    let lines := historyLines (lastN 10 history)
    if lines.isEmpty then ""
    else "Conversation context:\n" ++ joinSep "\n" lines ++ "\n\n"

/-- `TutorPlanner.plan`: availability check, prompt assembly
(`USER_PROMPT_TEMPLATE.format(question=question)` inlined), generation,
then the parsing pipeline `planFromRawE`. -/
def plan (avail : Bool) (gen : String → Option String) (jp : JParser)
    (question : String) (history : List Msg) : Except Unit (Option TutorPlan) :=
  if !avail then .ok Option.none
  else
    let prompt := SYSTEM_PROMPT ++ "\n\n" ++ history_block history ++
      "Question: " ++ question ++ "\n\nReturn the JSON object now."
    match gen prompt with
    | Option.none => .ok Option.none
    | some raw => planFromRawE jp raw

end TutorPlanner

namespace MultiAgentCoordinator

/-- `_format_history` (last 6 messages). -/
def format_history (history : List Msg) : String :=
  if history.isEmpty then ""
  else
    let lines := historyLines (lastN 6 history)
    if lines.isEmpty then ""
    else "Conversation context:\n" ++ joinSep "\n" lines ++ "\n\n"

/-- `_run_agent` without the metric bookkeeping: empty or missing output
contributes nothing, otherwise the stripped output. -/
def run_agent (gen : String → Option String) (prompt : String) : Option String :=
  match gen prompt with
  | Option.none => Option.none
  | some output => if output = "" then Option.none else some (pyStrip output)

/-- `_run_planner`: the planner call with its `try/except` that converts
an escaping exception into `None`. -/
def run_planner (avail : Bool) (gen : String → Option String) (jp : JParser)
    (question : String) (history : List Msg) : Option TutorPlan :=
  match TutorPlanner.plan avail gen jp question history with
  | .ok r => r
  | .error _ => Option.none

def intuitionPrompt (ctx q : String) : String :=
  ctx ++ "Provide a short intuition for: " ++ q ++
    "\nUse LaTeX for symbols like \\(\\lambda\\). Keep it 3-5 sentences."

def examplesPrompt (ctx q : String) : String :=
  ctx ++ "Provide 2-3 concise examples for: " ++ q ++
    "\nFormat as bullet points. Use LaTeX for math."

def proofPrompt (ctx q : String) : String :=
  ctx ++ "Provide a short proof sketch or justification for: " ++ q ++
    "\nKeep it brief and use LaTeX for math."

def historyPrompt (ctx q : String) : String :=
  ctx ++ "Provide a brief historical note or anecdote related to: " ++ q ++
    "\nKeep it 2-3 sentences."

def visualizationPrompt (ctx q : String) : String :=
  ctx ++ "Describe a visualization idea for: " ++ q ++
    "\nKeep it 2-3 sentences and focus on intuition."

def snippetContext (snippets : List RetrievedSnippet) : String :=
  joinSep "\n" (snippets.map (fun item =>
    "- " ++ item.title ++ ": " ++ pyTake item.snippet 320 ++ " (source: " ++ item.url ++ ")"))

def webResearchPrompt (question ctx : String) : String :=
  "Question: " ++ question ++ "\n" ++
    "Using only the retrieved web snippets, write 3 concise bullet points that improve factual coverage.\n" ++
    "Keep wording learner-friendly and avoid speculation.\n" ++
    "End with a short \x27Sources:\x27 list using the provided URLs.\n\n" ++
    "Retrieved snippets:\n" ++ ctx

/-- `_run_web_research_agent`. -/
def run_web_research_agent (gen : String → Option String) (web : WebRagPort)
    (question draft_solution : String) : Option String :=
  if !WebMathRAG.should_enrich web question draft_solution then Option.none
  else
    let snippets := web.retrieve question 2
    if snippets.isEmpty then Option.none
    else run_agent gen (webResearchPrompt question (snippetContext snippets))

/-- The heading prefixes of the coordinator, embedded codepoint for
codepoint (the source file stores the emoji as mojibake text, e.g.
U+00F0 U+0178 U+2019 U+00A1 for the intuition heading). -/
def headingIntuition : String := "\u00F0\u0178\u2019\u00A1 **Intuition**\n"

def headingExamples : String := "\u00F0\u0178\u00A7\u00AA **Examples**\n"

def headingProof : String := "\u00F0\u0178\u00A7\u00BE **Proof Sketch**\n"

def headingHistory : String := "\u00F0\u0178\u201C\u0153 **History**\n"

def headingVisualization : String :=
  "\u00F0\u0178\u2013\u00BC\u00EF\u00B8 **Visualization Idea**\n"

def headingWeb : String := "\u00F0\u0178\u0152 **Web-Verified Notes**\n"

/-- The additions list of `MultiAgentCoordinator.answer`: each truthy
agent output under its fixed heading, in the fixed order. -/
def additionsOf (intuition examples proof historyOut visualization web_context :
    Option String) : List String :=
  (if pyTruthy intuition then [headingIntuition ++ intuition.getD ""] else [])
  ++ (if pyTruthy examples then [headingExamples ++ examples.getD ""] else [])
  ++ (if pyTruthy proof then [headingProof ++ proof.getD ""] else [])
  ++ (if pyTruthy historyOut then [headingHistory ++ historyOut.getD ""] else [])
  ++ (if pyTruthy visualization then [headingVisualization ++ visualization.getD ""] else [])
  ++ (if pyTruthy web_context then [headingWeb ++ web_context.getD ""] else [])

/-- `MultiAgentCoordinator.answer`. -/
def answer (avail : Bool) (gen : String → Option String) (jp : JParser)
    (web : WebRagPort) (question : String) (history : List Msg) : Option TutorPlan :=
  if !avail then Option.none
  else
    match run_planner avail gen jp question history with
    | Option.none => Option.none
    | some plan =>
      let context := format_history history
      let intuition := run_agent gen (intuitionPrompt context question)
      let examples := run_agent gen (examplesPrompt context question)
      let proof := run_agent gen (proofPrompt context question)
      let historyOut := run_agent gen (historyPrompt context question)
      let visualization := run_agent gen (visualizationPrompt context question)
      let web_context := run_web_research_agent gen web question plan.solution
      let additions := additionsOf intuition examples proof historyOut visualization web_context
      if !additions.isEmpty then
        some { plan with
          solution := pyRstrip plan.solution ++ "\n\n" ++ joinSep "\n\n" additions }
      else some plan

end MultiAgentCoordinator

/-! ## Theorems -/

/-- C10: for every question, when the solution text is empty or
whitespace-only, `SymbolicChecker.run` returns exactly the one
`non_empty_solution` warn check, and no topic-specific rule runs
regardless of which topic markers the question contains. -/
theorem C10_empty_solution_single_check (cas : Option CAS) (question solution : String)
    (h : pyStrip solution = "") :
    SymbolicChecker.run cas question solution =
      [⟨"non_empty_solution", "warn", "No solution text available for checking."⟩] := by
  unfold SymbolicChecker.run
  rw [h]
  simp

/-- Witness for C10 at a whitespace-only solution and an eigen-marked
question. -/
theorem C10_empty_solution_single_check_witness :
    pyStrip "   " = "" ∧
      SymbolicChecker.run Option.none "Explain eigenvalues" "   " =
        [⟨"non_empty_solution", "warn", "No solution text available for checking."⟩] :=
  ⟨rfl, C10_empty_solution_single_check Option.none "Explain eigenvalues" "   " rfl⟩


/-! ### Shared lemmas about the Symbolic Checker -/

theorem check_equation_roots_ne_nil (cas : Option CAS) (q t : String) :
    SymbolicChecker.check_equation_roots cas q t ≠ [] := by
  unfold SymbolicChecker.check_equation_roots
  rcases cas with _ | c
  · simp
  · dsimp only
    split
    · simp
    · split
      · simp
      · split
        · simp
        · split
          · simp
          · simp

theorem check_derivative_symbolic_ne_nil (cas : Option CAS) (q t : String) :
    SymbolicChecker.check_derivative_symbolic cas q t ≠ [] := by
  unfold SymbolicChecker.check_derivative_symbolic
  rcases cas with _ | c
  · simp
  · dsimp only
    split
    · simp
    · split
      · simp
      · simp

theorem check_integral_symbolic_ne_nil (cas : Option CAS) (q t : String) :
    SymbolicChecker.check_integral_symbolic cas q t ≠ [] := by
  unfold SymbolicChecker.check_integral_symbolic
  rcases cas with _ | c
  · simp
  · dsimp only
    split
    · simp
    · split
      · simp
      · simp

/-- A check contributed by a selected rule subset appears in the output
of `run` (the empty-solution early return excluded). -/
theorem mem_run_of_dispatch (cas : Option CAS) (q s : String)
    (h0 : ¬(pyStrip s = "")) (c : TutorCheck)
    (hc : c ∈ SymbolicChecker.dispatch_checks cas (pyLower q) q (pyStrip s)) :
    c ∈ SymbolicChecker.run cas q s := by
  unfold SymbolicChecker.run
  rw [if_neg h0]
  dsimp only
  rw [if_neg]
  · exact hc
  · simp only [List.isEmpty_eq_true]
    exact List.ne_nil_of_mem hc

theorem deriv_mem_dispatch (cas : Option CAS) (q question text : String)
    (hd : SymbolicChecker.derivMarker q = true) (c : TutorCheck)
    (hc : c ∈ SymbolicChecker.check_derivative_symbolic cas question text) :
    c ∈ SymbolicChecker.dispatch_checks cas q question text := by
  unfold SymbolicChecker.dispatch_checks
  simp only [hd, if_true, List.mem_append]
  exact Or.inl (Or.inl (Or.inr (Or.inr hc)))

theorem integral_mem_dispatch (cas : Option CAS) (q question text : String)
    (hi : SymbolicChecker.integralMarker q = true) (c : TutorCheck)
    (hc : c ∈ SymbolicChecker.check_integral_symbolic cas question text) :
    c ∈ SymbolicChecker.dispatch_checks cas q question text := by
  unfold SymbolicChecker.dispatch_checks
  simp only [hi, if_true, List.mem_append]
  exact Or.inl (Or.inr (Or.inr hc))

theorem solve_mem_dispatch (cas : Option CAS) (q question text : String)
    (hs : SymbolicChecker.solveMarker q = true) (c : TutorCheck)
    (hc : c ∈ SymbolicChecker.check_equation_roots cas question text) :
    c ∈ SymbolicChecker.dispatch_checks cas q question text := by
  unfold SymbolicChecker.dispatch_checks
  simp only [hs, if_true, List.mem_append]
  exact Or.inr hc

/-- When only the solve/root/equation marker fires, `run` is exactly the
equation-roots rule. -/
theorem run_eq_equation_rule (cas : Option CAS) (q s : String)
    (h0 : ¬(pyStrip s = ""))
    (h1 : strContains (pyLower q) "eigen" = false)
    (h2 : SymbolicChecker.derivMarker (pyLower q) = false)
    (h3 : SymbolicChecker.integralMarker (pyLower q) = false)
    (h4 : SymbolicChecker.solveMarker (pyLower q) = true) :
    SymbolicChecker.run cas q s = SymbolicChecker.check_equation_roots cas q (pyStrip s) := by
  unfold SymbolicChecker.run SymbolicChecker.dispatch_checks
  simp only [h1, h2, h3, h4, Bool.false_eq_true, if_false, if_true, List.nil_append,
    if_neg h0, List.isEmpty_eq_true]
  rw [if_neg (check_equation_roots_ne_nil cas q (pyStrip s))]

/-- A computation exception in the derivative rule yields the single
warn check. -/
theorem deriv_cas_fail (cas : CAS) (question text e : String)
    (he : SymbolicChecker.extract_expression_from_question question
      ["derivative of", "differentiate"] = some e)
    (hne : e ≠ "")
    (hdiff : cas.diffOf e = .error ()) :
    SymbolicChecker.check_derivative_symbolic (some cas) question text =
      [⟨"derivative_symbolic_match", "warn",
        "Failed to compute symbolic derivative from parsed expression."⟩] := by
  unfold SymbolicChecker.check_derivative_symbolic
  rw [he]
  dsimp only
  rw [if_neg (by simp [pyTruthy, String.isEmpty_iff, hne]), Option.getD_some, hdiff]

/-- A computation exception in the integral rule yields the single warn
check. -/
theorem integral_cas_fail (cas : CAS) (question text e : String)
    (he : SymbolicChecker.extract_expression_from_question question
      ["integral of", "integrate"] = some e)
    (hne : e ≠ "")
    (hint : cas.integrateOf e = .error ()) :
    SymbolicChecker.check_integral_symbolic (some cas) question text =
      [⟨"integral_symbolic_match", "warn",
        "Failed to compute symbolic antiderivative from parsed expression."⟩] := by
  unfold SymbolicChecker.check_integral_symbolic
  rw [he]
  dsimp only
  rw [if_neg (by simp [pyTruthy, String.isEmpty_iff, hne]), Option.getD_some, hint]

/-- A computation exception in the equation-roots rule yields the single
warn check. -/
theorem roots_cas_fail (cas : CAS) (question text e : String)
    (he : SymbolicChecker.extract_equation_lhs question = some e)
    (hne : e ≠ "")
    (hsol : cas.solveRoots e = .error ()) :
    SymbolicChecker.check_equation_roots (some cas) question text =
      [⟨"equation_roots_match", "warn",
        "Failed to compute symbolic roots from parsed equation."⟩] := by
  unfold SymbolicChecker.check_equation_roots
  rw [he]
  dsimp only
  rw [if_neg (by simp [pyTruthy, String.isEmpty_iff, hne]), Option.getD_some, hsol]

/-- C5: for the question "Solve x^2 - 5x + 6 = 0" (whose extracted
left-hand side "x**2 - 5x + 6" the computer-algebra backend solves to
the real, float-convertible roots 2 and 3), the solution "The roots are
x = 2 and x = 3" yields the single check `equation_roots_match = pass`,
and the solution "x = 2" yields that check with `warn` reporting the
missing root 3; an expected real root counts as found exactly when some
decimal token of the solution text is within `1e-3` of it
(`absDiffLtMil`). -/
theorem C5_equation_roots_pass_warn (cas : CAS)
    (hsolve : cas.solveRoots "x**2 - 5x + 6" =
      .ok [⟨true, some 2⟩, ⟨true, some 3⟩]) :
    SymbolicChecker.run (some cas) "Solve x^2 - 5x + 6 = 0" "The roots are x = 2 and x = 3" =
      [⟨"equation_roots_match", "pass", "All expected real roots are present in solution."⟩] ∧
    SymbolicChecker.run (some cas) "Solve x^2 - 5x + 6 = 0" "x = 2" =
      [⟨"equation_roots_match", "warn", "Missing expected roots: 3"⟩] := by
  constructor <;>
  · rw [run_eq_equation_rule _ _ _ (by decide) (by decide) (by decide) (by decide) (by decide)]
    unfold SymbolicChecker.check_equation_roots
    dsimp only
    rw [show SymbolicChecker.extract_equation_lhs "Solve x^2 - 5x + 6 = 0" =
      some "x**2 - 5x + 6" from rfl]
    rw [if_neg (by decide), Option.getD_some, hsolve]
    decide

/-- A concrete computer-algebra backend agreeing with SymPy on the C5
equation: `solve(Eq(x**2 - 5*x + 6, 0), x) = [2, 3]`, both real. -/
def casC5 : CAS :=
  { diffOf := fun _ => .error ()
    integrateOf := fun _ => .error ()
    solveRoots := fun s =>
      if s = "x**2 - 5x + 6" then .ok [⟨true, some 2⟩, ⟨true, some 3⟩] else .error () }

/-- Witness for C5 at the backend `casC5`. -/
theorem C5_equation_roots_pass_warn_witness :
    casC5.solveRoots "x**2 - 5x + 6" = .ok [⟨true, some 2⟩, ⟨true, some 3⟩] ∧
    (SymbolicChecker.run (some casC5) "Solve x^2 - 5x + 6 = 0" "The roots are x = 2 and x = 3" =
      [⟨"equation_roots_match", "pass", "All expected real roots are present in solution."⟩] ∧
     SymbolicChecker.run (some casC5) "Solve x^2 - 5x + 6 = 0" "x = 2" =
      [⟨"equation_roots_match", "warn", "Missing expected roots: 3"⟩]) :=
  ⟨rfl, C5_equation_roots_pass_warn casC5 rfl⟩

/-- C6: the checker never propagates a backend failure: when the
computer-algebra backend is unavailable (`sp = None`), each marked
symbolic sub-check is still produced as an explicit warn naming the
skipped capability; and when a backend call raises, the rule yields
exactly one warn check naming the failure reason. -/
theorem C6_failure_isolation (cas : CAS) (question solution : String)
    (h0 : ¬(pyStrip solution = "")) :
    (SymbolicChecker.derivMarker (pyLower question) = true →
      (⟨"derivative_symbolic_match", "warn",
        "SymPy unavailable, symbolic derivative match skipped."⟩ : TutorCheck) ∈
        SymbolicChecker.run Option.none question solution) ∧
    (SymbolicChecker.integralMarker (pyLower question) = true →
      (⟨"integral_symbolic_match", "warn",
        "SymPy unavailable, symbolic integral match skipped."⟩ : TutorCheck) ∈
        SymbolicChecker.run Option.none question solution) ∧
    (SymbolicChecker.solveMarker (pyLower question) = true →
      (⟨"equation_roots_match", "warn",
        "SymPy unavailable, root consistency check skipped."⟩ : TutorCheck) ∈
        SymbolicChecker.run Option.none question solution) ∧
    (∀ e, SymbolicChecker.extract_expression_from_question question
        ["derivative of", "differentiate"] = some e → e ≠ "" →
      cas.diffOf e = .error () →
      SymbolicChecker.check_derivative_symbolic (some cas) question solution =
        [⟨"derivative_symbolic_match", "warn",
          "Failed to compute symbolic derivative from parsed expression."⟩]) ∧
    (∀ e, SymbolicChecker.extract_expression_from_question question
        ["integral of", "integrate"] = some e → e ≠ "" →
      cas.integrateOf e = .error () →
      SymbolicChecker.check_integral_symbolic (some cas) question solution =
        [⟨"integral_symbolic_match", "warn",
          "Failed to compute symbolic antiderivative from parsed expression."⟩]) ∧
    (∀ e, SymbolicChecker.extract_equation_lhs question = some e → e ≠ "" →
      cas.solveRoots e = .error () →
      SymbolicChecker.check_equation_roots (some cas) question solution =
        [⟨"equation_roots_match", "warn",
          "Failed to compute symbolic roots from parsed equation."⟩]) := by
  refine ⟨?_, ?_, ?_, ?_, ?_, ?_⟩
  · intro hd
    exact mem_run_of_dispatch _ _ _ h0 _
      (deriv_mem_dispatch _ _ _ _ hd _ (by simp [SymbolicChecker.check_derivative_symbolic]))
  · intro hi
    exact mem_run_of_dispatch _ _ _ h0 _
      (integral_mem_dispatch _ _ _ _ hi _ (by simp [SymbolicChecker.check_integral_symbolic]))
  · intro hs
    exact mem_run_of_dispatch _ _ _ h0 _
      (solve_mem_dispatch _ _ _ _ hs _ (by simp [SymbolicChecker.check_equation_roots]))
  · intro e he hne hdiff
    exact deriv_cas_fail cas question solution e he hne hdiff
  · intro e he hne hint
    exact integral_cas_fail cas question solution e he hne hint
  · intro e he hne hsol
    exact roots_cas_fail cas question solution e he hne hsol

/-- A backend whose every call raises, for the C6 witness. -/
def casC6 : CAS :=
  { diffOf := fun _ => .error ()
    integrateOf := fun _ => .error ()
    solveRoots := fun _ => .error () }

/-- Witness for C6 at the question "derivative of x": the unavailable
backend still produces the derivative sub-check as a warn, and a raising
backend collapses the rule to the single failure warn. -/
theorem C6_failure_isolation_witness :
    ¬(pyStrip "It grows linearly." = "") ∧
    ((⟨"derivative_symbolic_match", "warn",
       "SymPy unavailable, symbolic derivative match skipped."⟩ : TutorCheck) ∈
      SymbolicChecker.run Option.none "derivative of x" "It grows linearly.") ∧
    SymbolicChecker.check_derivative_symbolic (some casC6) "derivative of x" "It grows linearly." =
      [⟨"derivative_symbolic_match", "warn",
        "Failed to compute symbolic derivative from parsed expression."⟩] :=
  ⟨by decide,
   (C6_failure_isolation casC6 "derivative of x" "It grows linearly." (by decide)).1 (by decide),
   (C6_failure_isolation casC6 "derivative of x" "It grows linearly."
     (by decide)).2.2.2.1 "x" (by decide) (by decide) rfl⟩


/-! ### Shared lemmas about the Plan Parser -/

theorem typeAt_values (l : List Char) (ty : String) (h : typeAt l = some ty) :
    ty = "manim" ∨ ty = "plotly" := by
  unfold typeAt at h
  repeat' split at h
  all_goals simp_all

theorem typeSearchAux_values (fuel : Nat) (l : List Char) (ty : String)
    (h : typeSearchAux fuel l = some ty) : ty = "manim" ∨ ty = "plotly" := by
  induction fuel generalizing l with
  | zero => simp [typeSearchAux] at h
  | succ n ih =>
    rcases l with _ | ⟨c, t⟩
    · simp [typeSearchAux] at h
    · unfold typeSearchAux at h
      split at h
      · next hv => exact typeAt_values _ _ (by rw [hv]; exact congrArg some (Option.some_inj.mp h))
      · exact ih t h

/-- The `"type"` group can only be "manim" or "plotly". -/
theorem typeSearch_values (raw : String) (ty : String) (h : typeSearch raw = some ty) :
    ty = "manim" ∨ ty = "plotly" :=
  typeSearchAux_values _ _ _ h

set_option maxHeartbeats 2000000 in
/-- Normalisation and pydantic validation of any dictionary shaped like a
loose-parser payload succeed, preserving the solution string. -/
theorem loose_dict_plan (S : String) (B : Bool) (V : PyVal)
    (hV : V = PyVal.none ∨ ∃ ty G C, (ty = "manim" ∨ ty = "plotly") ∧
      (C = PyVal.none ∨ ∃ c, C = PyVal.str c) ∧
      V = .dict [("type", .str ty), ("goal", .str G), ("parameters", .dict []),
        ("code", C)]) :
    ∃ p : TutorPlan,
      tutorPlanOfPayload (normalizePayload
        [("solution", .str S), ("needs_visualization", .bool B),
         ("visualization", V)]) = some p ∧ p.solution = S := by
  rcases hV with rfl | ⟨ty, G, C, hty, hC, rfl⟩
  · refine ⟨⟨S, some S, some "", [], B, Option.none⟩, ?_, rfl⟩
    unfold normalizePayload tutorPlanOfPayload
    simp [pyGet, dictGet, pyGetD, dictSet, isPyNone, pyTruthyV, List.lookup,
      validateOptStr, validateChecks, validateViz, validateVizPlan, List.mapM,
      List.mapM.loop, Option.bind]
  · have htyE : ∃ tyE, vizTypeOfStr ty = some tyE := by
      rcases hty with rfl | rfl
      · exact ⟨.manim, rfl⟩
      · exact ⟨.plotly, rfl⟩
    obtain ⟨tyE, htyE⟩ := htyE
    have htyne : ty.isEmpty = false := by
      rcases hty with rfl | rfl <;> rfl
    by_cases hGe : G = ""
    · subst hGe
      rcases hC with rfl | ⟨c, rfl⟩
      · refine ⟨⟨S, some S, some "", [], B,
          some ⟨tyE, "Generated visualization", [], Option.none⟩⟩, ?_, rfl⟩
        unfold normalizePayload tutorPlanOfPayload
        simp [pyGet, dictGet, pyGetD, dictSet, isPyNone, pyTruthyV, List.lookup,
          validateOptStr, validateChecks, validateViz, validateVizPlan, List.mapM,
          List.mapM.loop, Option.bind, htyE, htyne]
      · by_cases hU : (strContains c "\\n" && !strContains c "\n") = true
        · refine ⟨⟨S, some S, some "", [], B,
            some ⟨tyE, "Generated visualization", [], some (pyReplace c "\\n" "\n")⟩⟩, ?_, rfl⟩
          unfold normalizePayload tutorPlanOfPayload
          simp [pyGet, dictGet, pyGetD, dictSet, isPyNone, pyTruthyV, List.lookup,
            validateOptStr, validateChecks, validateViz, validateVizPlan, List.mapM,
            List.mapM.loop, Option.bind, htyE, htyne, hU]
        · refine ⟨⟨S, some S, some "", [], B,
            some ⟨tyE, "Generated visualization", [], some c⟩⟩, ?_, rfl⟩
          unfold normalizePayload tutorPlanOfPayload
          simp [pyGet, dictGet, pyGetD, dictSet, isPyNone, pyTruthyV, List.lookup,
            validateOptStr, validateChecks, validateViz, validateVizPlan, List.mapM,
            List.mapM.loop, Option.bind, htyE, htyne, hU]
    · have hGE : G.isEmpty = false := by
        rcases hG2 : G.isEmpty with _ | _
        · rfl
        · exact absurd ((String.isEmpty_iff G).mp hG2) hGe
      rcases hC with rfl | ⟨c, rfl⟩
      · refine ⟨⟨S, some S, some "", [], B, some ⟨tyE, G, [], Option.none⟩⟩, ?_, rfl⟩
        unfold normalizePayload tutorPlanOfPayload
        simp [pyGet, dictGet, pyGetD, dictSet, isPyNone, pyTruthyV, List.lookup,
          validateOptStr, validateChecks, validateViz, validateVizPlan, List.mapM,
          List.mapM.loop, Option.bind, htyE, htyne, hGE]
      · by_cases hU : (strContains c "\\n" && !strContains c "\n") = true
        · refine ⟨⟨S, some S, some "", [], B,
            some ⟨tyE, G, [], some (pyReplace c "\\n" "\n")⟩⟩, ?_, rfl⟩
          unfold normalizePayload tutorPlanOfPayload
          simp [pyGet, dictGet, pyGetD, dictSet, isPyNone, pyTruthyV, List.lookup,
            validateOptStr, validateChecks, validateViz, validateVizPlan, List.mapM,
            List.mapM.loop, Option.bind, htyE, htyne, hGE, hU]
        · refine ⟨⟨S, some S, some "", [], B, some ⟨tyE, G, [], some c⟩⟩, ?_, rfl⟩
          unfold normalizePayload tutorPlanOfPayload
          simp [pyGet, dictGet, pyGetD, dictSet, isPyNone, pyTruthyV, List.lookup,
            validateOptStr, validateChecks, validateViz, validateVizPlan, List.mapM,
            List.mapM.loop, Option.bind, htyE, htyne, hGE, hU]

/-- A model of `json.loads` at the two strings probed by the C1
counterexample: the whole raw text is not valid JSON, while the brace
block extracted from it decodes to `{"steps": "just do it"}`. -/
def jpStepsStr : JParser := fun s =>
  if s = "\x7b\"steps\": \"just do it\"\x7d" then
    some (.dict [("steps", .str "just do it")])
  else Option.none

/-- C1 counterexample: the raw output `oops {"steps": "just do it"} end`
is only partially JSON-ish (the whole text does not decode) and carries
a recognizable non-empty `steps` field, yet `plan` returns `None`
rather than a `TutorPlan` with a non-empty solution: `_normalize_payload`
leaves `payload["solution"]` unset when the fallback field is itself a
string, so `TutorPlan(**payload)` fails validation and the `except`
branch returns `None`. -/
theorem C1_counterexample :
    jpStepsStr "oops \x7b\"steps\": \"just do it\"\x7d end" = Option.none ∧
    strContains "oops \x7b\"steps\": \"just do it\"\x7d end" "\"steps\"" = true ∧
    pyTruthyV (.str "just do it") = true ∧
    planFromRawE jpStepsStr "oops \x7b\"steps\": \"just do it\"\x7d end" = .ok Option.none :=
  ⟨rfl, by decide, rfl, rfl⟩

/-- C1 (amended): for every raw model output that is not pure whitespace
and from which no valid JSON block can be extracted, `plan` returns a
`TutorPlan` — never `None` and never raising — whose solution is a
non-empty string.  (When a valid JSON block is extractable from a
partially JSON-ish output, the parser still never raises but may return
`None` or an empty solution, as the counterexample shows.) -/
theorem C1_amended_nonempty_solution (jp : JParser) (raw : String)
    (h0 : pyStrip raw ≠ "")
    (hjson : extract_json_block jp raw = Option.none) :
    ∃ p : TutorPlan, planFromRawE jp raw = .ok (some p) ∧ p.solution ≠ "" := by
  have hraw : raw ≠ "" := fun h => h0 (by rw [h]; rfl)
  have hjt : (if raw = "" then Option.none else extract_json_block jp raw) = Option.none := by
    rw [if_neg hraw, hjson]
  unfold planFromRawE
  rw [hjt]
  dsimp only
  rw [if_pos hraw]
  rcases hP : parseLoosePayload raw with _ | d
  · exact ⟨_, rfl, hraw⟩
  · unfold parseLoosePayload at hP
    rw [if_neg hraw] at hP
    split at hP
    · exact absurd hP (by simp)
    · obtain rfl := Option.some_inj.mp hP
      have hV : looseViz raw = PyVal.none ∨ ∃ ty G C, (ty = "manim" ∨ ty = "plotly") ∧
          (C = PyVal.none ∨ ∃ c, C = PyVal.str c) ∧
          looseViz raw = .dict [("type", .str ty), ("goal", .str G),
            ("parameters", .dict []), ("code", C)] := by
        unfold looseViz
        rcases ht : typeSearch raw with _ | ty
        · exact Or.inl rfl
        · refine Or.inr ⟨ty, (goalSearch raw).getD "Generated visualization", _,
            typeSearch_values raw ty ht, ?_, rfl⟩
          rcases looseCode raw with _ | c
          · exact Or.inl rfl
          · exact Or.inr ⟨c, rfl⟩
      obtain ⟨p, hp, hps⟩ := loose_dict_plan
        (match looseSolution raw with
          | some s => if s = "" then pyStrip raw else s
          | none => pyStrip raw)
        (match needsSearch raw with
          | some b => b
          | none => pyTruthyV (looseViz raw))
        (looseViz raw) hV
      refine ⟨p, ?_, ?_⟩
      · dsimp only
        rw [hp]
      · rw [hps]
        rcases hLS : looseSolution raw with _ | s <;> dsimp only
        · exact h0
        · by_cases hs : s = ""
          · rw [if_pos hs]
            exact h0
          · rw [if_neg hs]
            exact hs

/-- A model of `json.loads` that decodes nothing, for witnesses whose raw
text contains no valid JSON at all. -/
def jpNothing : JParser := fun _ => Option.none

/-- Witness for the amended C1 at a prose answer with a recognizable
description field but no valid JSON. -/
theorem C1_amended_nonempty_solution_witness :
    pyStrip "note \"description\": \"add the angles\" done" ≠ "" ∧
    extract_json_block jpNothing "note \"description\": \"add the angles\" done" = Option.none ∧
    ∃ p : TutorPlan,
      planFromRawE jpNothing "note \"description\": \"add the angles\" done" = .ok (some p) ∧
      p.solution ≠ "" :=
  ⟨by decide, rfl,
   C1_amended_nonempty_solution jpNothing "note \"description\": \"add the angles\" done"
     (by decide) rfl⟩

/-- C2: when every structured parsing stage fails on a non-empty raw text
(no valid JSON block, no loose-parse match), `plan` returns the degraded
plan whose solution is the raw text verbatim, with no visualization and
`needs_visualization = False`, rather than failing. -/
theorem C2_degraded_plan_on_total_parse_failure (jp : JParser) (raw : String)
    (hraw : raw ≠ "")
    (hjson : extract_json_block jp raw = Option.none)
    (hloose : parseLoosePayload raw = Option.none) :
    planFromRawE jp raw =
      .ok (some ⟨raw, Option.none, Option.none, [], false, Option.none⟩) := by
  have hjt : (if raw = "" then Option.none else extract_json_block jp raw) = Option.none := by
    rw [if_neg hraw, hjson]
  unfold planFromRawE
  rw [hjt]
  dsimp only
  rw [if_pos hraw, hloose]

/-- A model of `json.loads` rejecting everything, for the C2 witness. -/
def jpRejectAll : JParser := fun _ => Option.none

/-- Witness for C2 at a plain prose completion. -/
theorem C2_degraded_plan_witness :
    "The answer is probably four." ≠ "" ∧
    extract_json_block jpRejectAll "The answer is probably four." = Option.none ∧
    parseLoosePayload "The answer is probably four." = Option.none ∧
    planFromRawE jpRejectAll "The answer is probably four." =
      .ok (some ⟨"The answer is probably four.", Option.none, Option.none, [],
        false, Option.none⟩) :=
  ⟨by decide, rfl, rfl,
   C2_degraded_plan_on_total_parse_failure jpRejectAll "The answer is probably four."
     (by decide) rfl rfl⟩


/-! ### Shared lemmas about the Answer Cache -/

theorem foldl_max_init_le (l : List ℚ) (s : ℚ) : s ≤ l.foldl max s := by
  induction l generalizing s with
  | nil => exact le_refl s
  | cons x xs ih => exact le_trans (le_max_left s x) (ih (max s x))

/-- The scan of `_get_cached_answer` computes the maximum similarity
score and, when some entry strictly beat the initial score, returns the
first entry attaining the maximum. -/
theorem bestLoop_spec {VP : Type} (tokens : List String)
    (l : List (GenerativeTutorService.RecentEntry VP))
    (b : Option (GenerativeTutorService.RecentEntry VP)) (s : ℚ) :
    (GenerativeTutorService.bestLoop tokens l b s).2 =
      (l.map (GenerativeTutorService.simScore tokens)).foldl max s ∧
    (s < (GenerativeTutorService.bestLoop tokens l b s).2 →
      ∃ e ∈ l, GenerativeTutorService.simScore tokens e =
          (GenerativeTutorService.bestLoop tokens l b s).2 ∧
        (GenerativeTutorService.bestLoop tokens l b s).1 = some e) ∧
    (¬ s < (GenerativeTutorService.bestLoop tokens l b s).2 →
      (GenerativeTutorService.bestLoop tokens l b s).1 = b ∧
      (GenerativeTutorService.bestLoop tokens l b s).2 = s) := by
  induction l generalizing b s with
  | nil =>
    refine ⟨rfl, fun h => absurd h (lt_irrefl s), fun _ => ⟨rfl, rfl⟩⟩
  | cons e t ih =>
    by_cases h : s < GenerativeTutorService.simScore tokens e
    · have hstep : GenerativeTutorService.bestLoop tokens (e :: t) b s =
          GenerativeTutorService.bestLoop tokens t (some e)
            (GenerativeTutorService.simScore tokens e) := by
        conv_lhs => unfold GenerativeTutorService.bestLoop
        dsimp only
        rw [if_pos h]
      obtain ⟨ih1, ih2, ih3⟩ := ih (some e) (GenerativeTutorService.simScore tokens e)
      have hge : GenerativeTutorService.simScore tokens e ≤
          (GenerativeTutorService.bestLoop tokens t (some e)
            (GenerativeTutorService.simScore tokens e)).2 := by
        rw [ih1]
        exact foldl_max_init_le _ _
      refine ⟨?_, ?_, ?_⟩
      · rw [hstep, ih1, List.map_cons, List.foldl_cons,
          max_eq_right (le_of_lt h)]
      · intro _
        rw [hstep]
        by_cases h2 : GenerativeTutorService.simScore tokens e <
            (GenerativeTutorService.bestLoop tokens t (some e)
              (GenerativeTutorService.simScore tokens e)).2
        · obtain ⟨e2, he2, hs2, hb2⟩ := ih2 h2
          exact ⟨e2, List.mem_cons_of_mem e he2, hs2, hb2⟩
        · obtain ⟨hb2, hs2⟩ := ih3 h2
          exact ⟨e, List.mem_cons_self e t, hs2.symm, hb2⟩
      · intro hn
        exfalso
        rw [hstep] at hn
        exact hn (lt_of_lt_of_le h hge)
    · have hstep : GenerativeTutorService.bestLoop tokens (e :: t) b s =
          GenerativeTutorService.bestLoop tokens t b s := by
        conv_lhs => unfold GenerativeTutorService.bestLoop
        dsimp only
        rw [if_neg h]
      obtain ⟨ih1, ih2, ih3⟩ := ih b s
      refine ⟨?_, ?_, ?_⟩
      · rw [hstep, ih1, List.map_cons, List.foldl_cons,
          max_eq_left (le_of_not_lt h)]
      · intro hlt
        rw [hstep] at hlt ⊢
        obtain ⟨e2, he2, hs2, hb2⟩ := ih2 hlt
        exact ⟨e2, List.mem_cons_of_mem e he2, hs2, hb2⟩
      · intro hn
        rw [hstep] at hn ⊢
        exact ih3 hn

/-- The highest similarity score the recency buffer offers a query. -/
def maxSimScore {VP : Type} (st : GenerativeTutorService.CacheState VP)
    (question : String) : ℚ :=
  (st.recent.map (GenerativeTutorService.simScore
    (GenerativeTutorService.tokenize
      (GenerativeTutorService.normalize_question question)))).foldl max 0

/-- C4: when the exact key misses, the similarity fallback returns the
result of a recency-buffer entry attaining the highest token-set Jaccard
score against the normalized query if and only if that highest score is
at least 0.9; if every buffered entry scores below 0.9 the lookup is a
miss. -/
theorem C4_similarity_threshold {VP : Type} (st : GenerativeTutorService.CacheState VP)
    (question : String)
    (hmiss : GenerativeTutorService.exact_hit st question = Option.none) :
    (mkRat 9 10 ≤ maxSimScore st question →
      ∃ e ∈ st.recent,
        GenerativeTutorService.simScore
          (GenerativeTutorService.tokenize
            (GenerativeTutorService.normalize_question question)) e =
          maxSimScore st question ∧
        GenerativeTutorService.get_cached_answer st question = some e.result) ∧
    (maxSimScore st question < mkRat 9 10 →
      GenerativeTutorService.get_cached_answer st question = Option.none) := by
  obtain ⟨h1, h2, h3⟩ := bestLoop_spec
    (GenerativeTutorService.tokenize (GenerativeTutorService.normalize_question question))
    st.recent Option.none 0
  have hget : GenerativeTutorService.get_cached_answer st question =
      (match GenerativeTutorService.bestLoop
          (GenerativeTutorService.tokenize (GenerativeTutorService.normalize_question question))
          st.recent Option.none 0 with
       | (some best, bestScore) =>
         if mkRat 9 10 ≤ bestScore then some best.result else Option.none
       | (Option.none, _) => Option.none) := by
    unfold GenerativeTutorService.get_cached_answer
    dsimp only
    rw [show st.exact.lookup ("tutor:" ++ GenerativeTutorService.normalize_question question) =
      Option.none from hmiss]
  have hm1 : (GenerativeTutorService.bestLoop
      (GenerativeTutorService.tokenize (GenerativeTutorService.normalize_question question))
      st.recent Option.none 0).2 = maxSimScore st question := h1
  constructor
  · intro hm
    have h0lt : (0 : ℚ) < (GenerativeTutorService.bestLoop
        (GenerativeTutorService.tokenize (GenerativeTutorService.normalize_question question))
        st.recent Option.none 0).2 := by
      rw [hm1]
      exact lt_of_lt_of_le (by decide) hm
    obtain ⟨e, he, hse, hb⟩ := h2 h0lt
    refine ⟨e, he, ?_, ?_⟩
    · rw [hse, hm1]
    · rw [hget]
      rcases hbs : GenerativeTutorService.bestLoop
        (GenerativeTutorService.tokenize (GenerativeTutorService.normalize_question question))
        st.recent Option.none 0 with ⟨b2, s2⟩
      rw [hbs] at hb hm1
      dsimp only at hb hm1
      subst hb
      dsimp only
      rw [if_pos (by rw [hm1]; exact hm)]
  · intro hm
    rw [hget]
    rcases hbs : GenerativeTutorService.bestLoop
      (GenerativeTutorService.tokenize (GenerativeTutorService.normalize_question question))
      st.recent Option.none 0 with ⟨b2, s2⟩
    rw [hbs] at hm1
    dsimp only at hm1
    rcases b2 with _ | best
    · rfl
    · dsimp only
      rw [if_neg]
      rw [hm1]
      exact not_le_of_lt hm

/-- A two-entry cache state for the C4 witness. -/
def cacheC4 : GenerativeTutorService.CacheState Unit :=
  ⟨[], [⟨["a", "b"], ("r1", Option.none)⟩, ⟨["a"], ("r2", Option.none)⟩]⟩

/-- Witness for C4: the query "A b" misses the exact key and scores
Jaccard 1 against the first entry, which the lookup returns. -/
theorem C4_similarity_threshold_witness :
    GenerativeTutorService.exact_hit cacheC4 "A b" = Option.none ∧
    ∃ e ∈ cacheC4.recent,
      GenerativeTutorService.simScore
        (GenerativeTutorService.tokenize
          (GenerativeTutorService.normalize_question "A b")) e =
        maxSimScore cacheC4 "A b" ∧
      GenerativeTutorService.get_cached_answer cacheC4 "A b" = some e.result :=
  ⟨rfl, (C4_similarity_threshold cacheC4 "A b" rfl).1 (by decide)⟩

/-- The cache state after storing the answer for "Explain eigenvalues". -/
def cacheC3 : GenerativeTutorService.CacheState Unit :=
  GenerativeTutorService.store_cached_answer ⟨[], []⟩ "Explain eigenvalues" "answer" Option.none

/-- C3 counterexample: `_normalize_question` strips before mapping
punctuation to spaces, so "explain   EIGENVALUES!!" normalizes to
"explain eigenvalues " with a trailing space while the stored question
normalizes without it — the two exact keys differ and the exact-key path
misses (the stored result is only reachable through the similarity
path). -/
theorem C3_counterexample :
    GenerativeTutorService.normalize_question "explain   EIGENVALUES!!" =
      "explain eigenvalues " ∧
    GenerativeTutorService.normalize_question "Explain eigenvalues" =
      "explain eigenvalues" ∧
    GenerativeTutorService.exact_hit cacheC3 "explain   EIGENVALUES!!" = Option.none :=
  ⟨by decide, by decide, by decide⟩

/-- C3 (amended): after storing an answer for "Explain eigenvalues", the
lookup for "explain   EIGENVALUES!!" misses the exact key (its
normalized key keeps a trailing space) but returns the stored result via
the similarity path, the token sets being identical (Jaccard 1 ≥ 0.9); a
query sharing only half of the tokens ("explain determinants", Jaccard
1/3) misses. -/
theorem C3_amended_cache_behavior :
    GenerativeTutorService.exact_hit cacheC3 "explain   EIGENVALUES!!" = Option.none ∧
    GenerativeTutorService.get_cached_answer cacheC3 "explain   EIGENVALUES!!" =
      some ("answer", Option.none) ∧
    GenerativeTutorService.exact_hit cacheC3 "Explain eigenvalues" =
      some ("answer", Option.none) ∧
    GenerativeTutorService.get_cached_answer cacheC3 "explain determinants" = Option.none :=
  ⟨by decide, by decide, by decide, by decide⟩

/-! ### C7: coordinator assembly -/

theorem additionsOf_eq_filter (i e p h v w : Option String) :
    MultiAgentCoordinator.additionsOf i e p h v w =
      (([(MultiAgentCoordinator.headingIntuition, i),
         (MultiAgentCoordinator.headingExamples, e),
         (MultiAgentCoordinator.headingProof, p),
         (MultiAgentCoordinator.headingHistory, h),
         (MultiAgentCoordinator.headingVisualization, v),
         (MultiAgentCoordinator.headingWeb, w)].filter
        (fun b => pyTruthy b.2)).map (fun b => b.1 ++ b.2.getD "")) := by
  cases hpi : pyTruthy i <;> cases hpe : pyTruthy e <;> cases hpp : pyTruthy p <;>
    cases hph : pyTruthy h <;> cases hpv : pyTruthy v <;> cases hpw : pyTruthy w <;>
    simp [MultiAgentCoordinator.additionsOf, hpi, hpe, hpp, hph, hpv, hpw,
      List.filter, List.map]

/-- C7: `MultiAgentCoordinator.answer` returns `None` exactly when the
planner yields no base plan; otherwise it returns the base plan with
every successful, non-empty auxiliary agent output appended under its
fixed named heading, in the fixed order intuition, examples, proof
sketch, history, visualization idea, web research, the blocks joined to
the rstripped base solution with blank-line separation (and the base
plan unchanged when no agent contributes). -/
theorem C7_coordinator_assembly (avail : Bool) (gen : String → Option String)
    (jp : JParser) (web : WebRagPort) (question : String) (history : List Msg) :
    (MultiAgentCoordinator.answer avail gen jp web question history = Option.none ↔
      MultiAgentCoordinator.run_planner avail gen jp question history = Option.none) ∧
    ∀ plan, MultiAgentCoordinator.run_planner avail gen jp question history = some plan →
      MultiAgentCoordinator.answer avail gen jp web question history =
        (let ctx := MultiAgentCoordinator.format_history history
         let adds :=
           (([(MultiAgentCoordinator.headingIntuition,
               MultiAgentCoordinator.run_agent gen
                 (MultiAgentCoordinator.intuitionPrompt ctx question)),
              (MultiAgentCoordinator.headingExamples,
               MultiAgentCoordinator.run_agent gen
                 (MultiAgentCoordinator.examplesPrompt ctx question)),
              (MultiAgentCoordinator.headingProof,
               MultiAgentCoordinator.run_agent gen
                 (MultiAgentCoordinator.proofPrompt ctx question)),
              (MultiAgentCoordinator.headingHistory,
               MultiAgentCoordinator.run_agent gen
                 (MultiAgentCoordinator.historyPrompt ctx question)),
              (MultiAgentCoordinator.headingVisualization,
               MultiAgentCoordinator.run_agent gen
                 (MultiAgentCoordinator.visualizationPrompt ctx question)),
              (MultiAgentCoordinator.headingWeb,
               MultiAgentCoordinator.run_web_research_agent gen web question
                 plan.solution)].filter (fun b => pyTruthy b.2)).map
             (fun b => b.1 ++ b.2.getD ""))
         if adds.isEmpty then some plan
         else some { plan with
           solution := pyRstrip plan.solution ++ "\n\n" ++ joinSep "\n\n" adds }) := by
  have hsome : ∀ plan,
      MultiAgentCoordinator.run_planner avail gen jp question history = some plan →
      MultiAgentCoordinator.answer avail gen jp web question history =
        (let ctx := MultiAgentCoordinator.format_history history
         let adds :=
           (([(MultiAgentCoordinator.headingIntuition,
               MultiAgentCoordinator.run_agent gen
                 (MultiAgentCoordinator.intuitionPrompt ctx question)),
              (MultiAgentCoordinator.headingExamples,
               MultiAgentCoordinator.run_agent gen
                 (MultiAgentCoordinator.examplesPrompt ctx question)),
              (MultiAgentCoordinator.headingProof,
               MultiAgentCoordinator.run_agent gen
                 (MultiAgentCoordinator.proofPrompt ctx question)),
              (MultiAgentCoordinator.headingHistory,
               MultiAgentCoordinator.run_agent gen
                 (MultiAgentCoordinator.historyPrompt ctx question)),
              (MultiAgentCoordinator.headingVisualization,
               MultiAgentCoordinator.run_agent gen
                 (MultiAgentCoordinator.visualizationPrompt ctx question)),
              (MultiAgentCoordinator.headingWeb,
               MultiAgentCoordinator.run_web_research_agent gen web question
                 plan.solution)].filter (fun b => pyTruthy b.2)).map
             (fun b => b.1 ++ b.2.getD ""))
         if adds.isEmpty then some plan
         else some { plan with
           solution := pyRstrip plan.solution ++ "\n\n" ++ joinSep "\n\n" adds }) := by
    intro plan hplan
    cases avail with
    | false =>
      have hnone : MultiAgentCoordinator.run_planner false gen jp question history =
        Option.none := rfl
      rw [hnone] at hplan
      exact absurd hplan (by simp)
    | true =>
      unfold MultiAgentCoordinator.answer
      rw [hplan]
      dsimp only
      rw [additionsOf_eq_filter]
      generalize (([(MultiAgentCoordinator.headingIntuition,
          MultiAgentCoordinator.run_agent gen
            (MultiAgentCoordinator.intuitionPrompt
              (MultiAgentCoordinator.format_history history) question)),
         (MultiAgentCoordinator.headingExamples,
          MultiAgentCoordinator.run_agent gen
            (MultiAgentCoordinator.examplesPrompt
              (MultiAgentCoordinator.format_history history) question)),
         (MultiAgentCoordinator.headingProof,
          MultiAgentCoordinator.run_agent gen
            (MultiAgentCoordinator.proofPrompt
              (MultiAgentCoordinator.format_history history) question)),
         (MultiAgentCoordinator.headingHistory,
          MultiAgentCoordinator.run_agent gen
            (MultiAgentCoordinator.historyPrompt
              (MultiAgentCoordinator.format_history history) question)),
         (MultiAgentCoordinator.headingVisualization,
          MultiAgentCoordinator.run_agent gen
            (MultiAgentCoordinator.visualizationPrompt
              (MultiAgentCoordinator.format_history history) question)),
         (MultiAgentCoordinator.headingWeb,
          MultiAgentCoordinator.run_web_research_agent gen web question
            plan.solution)].filter (fun b => pyTruthy b.2)).map
        (fun b => b.1 ++ b.2.getD "")) = adds
      cases adds <;> simp
  refine ⟨⟨?_, ?_⟩, hsome⟩
  · intro h
    cases hp : MultiAgentCoordinator.run_planner avail gen jp question history with
    | none => rfl
    | some p =>
      rw [hsome p hp] at h
      revert h
      dsimp only
      cases hE : (([(MultiAgentCoordinator.headingIntuition,
          MultiAgentCoordinator.run_agent gen
            (MultiAgentCoordinator.intuitionPrompt
              (MultiAgentCoordinator.format_history history) question)),
         (MultiAgentCoordinator.headingExamples,
          MultiAgentCoordinator.run_agent gen
            (MultiAgentCoordinator.examplesPrompt
              (MultiAgentCoordinator.format_history history) question)),
         (MultiAgentCoordinator.headingProof,
          MultiAgentCoordinator.run_agent gen
            (MultiAgentCoordinator.proofPrompt
              (MultiAgentCoordinator.format_history history) question)),
         (MultiAgentCoordinator.headingHistory,
          MultiAgentCoordinator.run_agent gen
            (MultiAgentCoordinator.historyPrompt
              (MultiAgentCoordinator.format_history history) question)),
         (MultiAgentCoordinator.headingVisualization,
          MultiAgentCoordinator.run_agent gen
            (MultiAgentCoordinator.visualizationPrompt
              (MultiAgentCoordinator.format_history history) question)),
         (MultiAgentCoordinator.headingWeb,
          MultiAgentCoordinator.run_web_research_agent gen web question
            p.solution)].filter (fun b => pyTruthy b.2)).map
        (fun b => b.1 ++ b.2.getD "")) <;> simp
  · intro h
    cases avail with
    | false => rfl
    | true =>
      unfold MultiAgentCoordinator.answer
      rw [h]
      rfl

def genC7 : String → Option String := fun _ => some "All good."

def jpC7 : JParser := fun _ => Option.none

def webC7 : WebRagPort := { enabled := false, retrieve := fun _ _ => [] }

/-- With a generator that always answers "All good." (unparseable as
JSON, so the base plan is the degraded one), a disabled web port and no
history, the coordinator appends the five agent blocks under their
headings in order. -/
theorem C7_coordinator_assembly_witness :
    MultiAgentCoordinator.run_planner true genC7 jpC7 "What is 2+2?" [] =
      some ⟨"All good.", Option.none, Option.none, [], false, Option.none⟩ ∧
    MultiAgentCoordinator.answer true genC7 jpC7 webC7 "What is 2+2?" [] =
      some ⟨"All good.\n\n" ++ MultiAgentCoordinator.headingIntuition ++
        "All good.\n\n" ++ MultiAgentCoordinator.headingExamples ++
        "All good.\n\n" ++ MultiAgentCoordinator.headingProof ++
        "All good.\n\n" ++ MultiAgentCoordinator.headingHistory ++
        "All good.\n\n" ++ MultiAgentCoordinator.headingVisualization ++
        "All good.", Option.none, Option.none, [], false, Option.none⟩ :=
  ⟨rfl, ((C7_coordinator_assembly true genC7 jpC7 webC7 "What is 2+2?" []).2
      ⟨"All good.", Option.none, Option.none, [], false, Option.none⟩ rfl).trans (by rfl)⟩

/-! ### C8: diagram job state machine -/

/-- C8: every diagram job follows the state machine queued (progress 5)
→ running (progress 25) → exactly one of completed or error (progress
100): the freshly submitted record is queued with progress 5, no state
before the last one is terminal, and the last state has progress 100
with the payload attached (completed) or the fixed human-readable
message (error).  The trace is exhaustive — the worker writes nothing
after the terminal update — so polls after the worker finishes all
observe that same terminal state. -/
theorem C8_diagram_job_state_machine {VP : Type} (question : String) (outcome : Option VP) :
    (GenerativeTutorService.jobTrace question outcome).head? =
      some (GenerativeTutorService.submittedJob question) ∧
    (@GenerativeTutorService.submittedJob VP question).status = .queued ∧
    (@GenerativeTutorService.submittedJob VP question).progress = 5 ∧
    (GenerativeTutorService.jobTrace question outcome).map (fun r => r.status) =
      [.queued, .running, if outcome.isSome then .completed else .error] ∧
    (∀ r ∈ (GenerativeTutorService.jobTrace question outcome).dropLast,
      r.status ≠ .completed ∧ r.status ≠ .error) ∧
    ∃ last, (GenerativeTutorService.jobTrace question outcome).getLast? = some last ∧
      last.progress = 100 ∧
      ((∃ viz, outcome = some viz ∧ last.status = .completed ∧
        last.visualization = some viz ∧ last.errorMsg = Option.none) ∨
       (outcome = Option.none ∧ last.status = .error ∧
        last.errorMsg = some "No diagram plan available for this topic yet.")) := by
  rcases outcome with _ | v
  · refine ⟨rfl, rfl, rfl, rfl, ?_, ⟨_, rfl, rfl, Or.inr ⟨rfl, rfl, rfl⟩⟩⟩
    intro r hr
    simp [GenerativeTutorService.jobTrace, GenerativeTutorService.workerUpdates,
      List.scanl, List.dropLast] at hr
    rcases hr with rfl | rfl <;>
      exact ⟨by simp [GenerativeTutorService.submittedJob,
          GenerativeTutorService.runningUpdate],
        by simp [GenerativeTutorService.submittedJob,
          GenerativeTutorService.runningUpdate]⟩
  · refine ⟨rfl, rfl, rfl, rfl, ?_, ⟨_, rfl, rfl, Or.inl ⟨v, rfl, rfl, rfl, rfl⟩⟩⟩
    intro r hr
    simp [GenerativeTutorService.jobTrace, GenerativeTutorService.workerUpdates,
      List.scanl, List.dropLast] at hr
    rcases hr with rfl | rfl <;>
      exact ⟨by simp [GenerativeTutorService.submittedJob,
          GenerativeTutorService.runningUpdate],
        by simp [GenerativeTutorService.submittedJob,
          GenerativeTutorService.runningUpdate]⟩

/-! ### C9: deterministic visualization fallback -/

def execC9 : GenerativeTutorService.ExecPort Unit :=
  { execute_plotly := fun _ _ => some ()
    execute_manim := fun _ _ => some () }

def planC9 : TutorPlan := ⟨"A linear system meets in one point.", Option.none,
  Option.none, [], false, Option.none⟩

/-- C9 counterexample: "Explain simultaneous equations" matches the
deterministic planner's systems-of-equations keyword group and that
recipe executes successfully, but the question neither requests a
visualization explicitly nor contains any `VISUAL_TOPIC_TOKENS` entry
("simultaneous equations" is missing from that list although it is a
planner keyword), so the fallback gate fails and the final payload is
`None`, not the recipe execution. -/
theorem C9_counterexample :
    (∃ r, VisualizationPlanner.plan "Explain simultaneous equations" = some r ∧
      GenerativeTutorService.execute_visualization_plan execC9 r = some ()) ∧
    VisualizationPlanner.is_visual_topic "Explain simultaneous equations" = false ∧
    GenerativeTutorService.question_requests_visualization
      "Explain simultaneous equations" = false ∧
    GenerativeTutorService.execute_visualization execC9 planC9
      "Explain simultaneous equations" = Option.none :=
  ⟨⟨_, rfl, rfl⟩, by decide, by decide, rfl⟩

/-- C9 (amended): for a question the deterministic planner matches that
also passes the visual gate (an explicit visualization request or a
visual-topic token), when the plan-requested visualization is absent or
is of a supported type and its execution fails, the final payload is
exactly the execution of the deterministic recipe; moreover any
question containing "parabola" and no keyword of an earlier group gets
the very recipe of the bare question "parabola" (first matching group
wins, the same recipe every time). -/
theorem C9_amended_deterministic_fallback {VP : Type}
    (ex : GenerativeTutorService.ExecPort VP)
    (plan : TutorPlan) (question : String) (r : VisualizationPlan)
    (hmatch : VisualizationPlanner.plan question = some r)
    (hgate : GenerativeTutorService.question_requests_visualization question = true ∨
      VisualizationPlanner.is_visual_topic question = true)
    (hcase : (plan.needs_visualization = false ∨ plan.visualization = Option.none) ∨
      ∃ viz, plan.visualization = some viz ∧ plan.needs_visualization = true ∧
        (viz.type = .plotly ∨ viz.type = .manim) ∧
        GenerativeTutorService.execute_visualization_plan ex viz = Option.none) :
    GenerativeTutorService.execute_visualization ex plan question =
      GenerativeTutorService.execute_visualization_plan ex r ∧
    (∀ q2, strContains (pyLower q2) "parabola" = true →
      (["hamiltonian graph", "hamiltonian cycle", "fraction", "fractions",
        "system of equations", "systems of equations", "simultaneous equations",
        "imaginary number", "imaginary numbers", "complex number", "complex numbers",
        "complex plane", "eigenvalue", "eigenvalues", "eigenvector",
        "eigenvectors"].all (fun tk => !strContains (pyLower q2) tk)) = true →
      VisualizationPlanner.plan q2 = VisualizationPlanner.plan "parabola") := by
  constructor
  · have hg : (GenerativeTutorService.question_requests_visualization question ||
        VisualizationPlanner.is_visual_topic question) = true := by
      rcases hgate with h | h <;> simp [h]
    rcases hcase with hnone | ⟨viz, hviz, hneeds, htype, hfail⟩
    · have hcond : (!plan.needs_visualization || plan.visualization.isNone) = true := by
        rcases hnone with h | h <;> simp [h]
      unfold GenerativeTutorService.execute_visualization
      rw [if_pos hcond, if_pos hg, hmatch]
    · have ht : ¬(viz.type ≠ VisualizationType.plotly ∧
          viz.type ≠ VisualizationType.manim) := by
        rcases htype with h | h <;> simp [h]
      unfold GenerativeTutorService.execute_visualization
      simp [hviz, hneeds, hfail, hg, hmatch, ht]
  · intro q2 hp hall
    simp only [List.all_cons, List.all_nil, Bool.and_eq_true, Bool.not_eq_true'] at hall
    obtain ⟨h1, h2, h3, h4, h5, h6, h7, h8, h9, h10, h11, h12, h13, h14, h15, h16, -⟩ := hall
    conv_lhs => unfold VisualizationPlanner.plan
    simp [h1, h2, h3, h4, h5, h6, h7, h8, h9, h10, h11, h12, h13, h14, h15, h16, hp]
    rfl

/-- A "Draw a parabola" question with a plan carrying no visualization:
the gate passes through the visual-topic token and the payload is the
parabola recipe's execution. -/
theorem C9_amended_deterministic_fallback_witness :
    ∃ r, VisualizationPlanner.plan "Draw a parabola" = some r ∧
      GenerativeTutorService.execute_visualization execC9 planC9 "Draw a parabola" =
        GenerativeTutorService.execute_visualization_plan execC9 r :=
  ⟨_, rfl, (C9_amended_deterministic_fallback execC9 planC9 "Draw a parabola" _ rfl
    (Or.inr (by decide)) (Or.inl (Or.inr rfl))).1⟩

end EuclidsWindow
